import Mathlib

/-! BluetoothSocket: connection, transfer and close paths

A shallow embedding of `src/src/bluetoothSocket.cpp`.

* The object state (`BluetoothSocketPrivate` together with the open mode kept by the
  `QIODevice` base) is the record `BluetoothSocket`.
* Every Qt signal emission and every native Winsock call is appended, in program
  order, to the field `trace`; the trace is the observable behaviour of a call.
* The operating system is an input: each native call takes its result from a script
  handed to the embedded function.  A loop whose script runs out before the loop
  ends yields `none` (the call has not returned on that script).
* `qint64` values are `Int`; the `ULONG` length handed to `WSASend` is reduced
  modulo `2 ^ 32` as the conversion in the source does.
-/

namespace WinBluetooth

/-! ## Data model -/

/-- Modelled from the spec: the enumeration `BluetoothSocket::SocketState` is declared in
`bluetoothSocket.h`, which is not part of the sources; the enumerators used by the code are
`UnconnectedState`, `ConnectingState`, `ConnectedState` and `ClosingState`. -/
inductive SocketState where
  | UnconnectedState
  | ConnectingState
  | ConnectedState
  | ClosingState
  | BoundState
  | ListeningState
  deriving DecidableEq, Repr

/-- Modelled from the spec: the enumeration `BluetoothSocket::SocketError` is declared in
`bluetoothSocket.h`, which is not part of the sources. -/
inductive SocketError where
  | NoSocketError
  | UnknownSocketError
  | OperationError
  | NetworkError
  | HostNotFoundError
  deriving DecidableEq, Repr

/-- What one `::WSASend` call reports: its return value, the `bytesWritten` out-parameter and
the value `WSAGetLastError()` yields afterwards. -/
structure SendResult where
  socketRet : Int
  bytesWritten : Nat
  err : Int
  deriving DecidableEq, Repr

/-- The buffer handed to one `::WSASend` call: `buf.buf = data + offset`, `buf.len = len`. -/
structure SendRequest where
  offset : Int
  len : Int
  deriving DecidableEq, Repr

/-- What one `::WSARecv` call reports: its return value, the `bytesRead` out-parameter and the
value `WSAGetLastError()` yields afterwards. -/
structure RecvResult where
  ret : Int
  bytesRead : Nat
  lastError : Int
  deriving DecidableEq, Repr

/-- What one `::getsockopt(SO_ERROR)` call reports: its return value and the value it stores
(stored only when the call succeeds). -/
structure SockOptResult where
  ret : Int
  value : Int
  deriving DecidableEq, Repr

/-- What one `::WSAConnect` call reports (return value and `WSAGetLastError()`), together with
the results of the `SO_ERROR` polls that may follow it. -/
structure ConnectAttempt where
  connectResult : Int
  err : Int
  polls : List SockOptResult
  deriving DecidableEq, Repr

/-- The three event handles of `BluetoothSocketPrivate`. -/
inductive EventHandle where
  | readEvent
  | joinEvent
  | readCompleteEvent
  deriving DecidableEq, Repr

/-- Modelled from the spec: `SecurityFlags` (a `QFlags` over the enumeration `Security`) is
declared in a header that is not part of the sources; the spec gives it as a bit set over
Encryption and Authentication, the two flags `setPreferredSecurityFlags` tests. -/
structure SecurityFlags where
  encryption : Bool
  authentication : Bool
  deriving DecidableEq, Repr

/-- Observable effects, in program order: Qt signals and native calls. -/
inductive Effect where
  | stateChanged (s : SocketState)
  | errorOccurred (e : SocketError)
  | connected
  | disconnected
  | bytesWritten (n : Nat)
  | WSAConnect
  | getsockopt
  | setsockopt
  | closesocket
  | WSASend (req : SendRequest) (res : SendResult)
  | WSARecv
  | setReadComplete
  | bytesWrittenWakeAll
  | setOpenMode (mode : Nat)
  | WSAStartup
  | socketCreate
  | setsockoptSndbuf
  | WSAIoctl
  | WSACreateEvent (h : EventHandle)
  | threadStart
  | WSASetEvent (h : EventHandle)
  | join
  | WSACloseEvent (h : EventHandle)
  | WSACleanup
  | setsockoptEncrypt
  | setsockoptAuthenticate
  deriving DecidableEq, Repr

/-- The fields of `BluetoothSocketPrivate` the connection, transfer and close paths use,
the open mode of the `QIODevice` base, and the trace of effects. -/
structure BluetoothSocket where
  socket : Nat
  btAddr : Nat
  state : SocketState
  error : SocketError
  errorString : String
  securityFlags : SecurityFlags
  openMode : Nat
  trace : List Effect
  deriving DecidableEq, Repr

/-! ## Winsock constants (from `WinSock2.h`) -/

abbrev INVALID_SOCKET : Nat := 2 ^ 64 - 1
abbrev SOCKET_ERROR : Int := -1
abbrev NOERROR : Int := 0
abbrev WSAEBADF : Int := 10009
abbrev WSAEACCES : Int := 10013
abbrev WSAEINVAL : Int := 10022
abbrev WSAEWOULDBLOCK : Int := 10035
abbrev WSAEINPROGRESS : Int := 10036
abbrev WSAEALREADY : Int := 10037
abbrev WSAEADDRINUSE : Int := 10048
abbrev WSAEADDRNOTAVAIL : Int := 10049
abbrev WSAENETDOWN : Int := 10050
abbrev WSAENETUNREACH : Int := 10051
abbrev WSAECONNABORTED : Int := 10053
abbrev WSAECONNRESET : Int := 10054
abbrev WSAENOBUFS : Int := 10055
abbrev WSAEISCONN : Int := 10056
abbrev WSAENOTCONN : Int := 10057
abbrev WSAETIMEDOUT : Int := 10060
abbrev WSAECONNREFUSED : Int := 10061
abbrev WSAEHOSTUNREACH : Int := 10065
abbrev WSANOTINITIALISED : Int := 10093

/-! ## Private helpers of the socket -/

/-- Append one effect to the trace. -/
def emit (d : BluetoothSocket) (e : Effect) : BluetoothSocket :=
  { d with trace := d.trace ++ [e] }

/-- Source function `BluetoothSocketPrivate::setState`: store the state, emit `stateChanged`. -/
def setState (d : BluetoothSocket) (state : SocketState) : BluetoothSocket :=
  emit { d with state := state } (Effect.stateChanged state)

/-- Source function `BluetoothSocketPrivate::setError`: store the error code, emit `error`.  The parameter
`errorString` shadows the member: the assignments in the body change the parameter only, and
the `BluetoothException` is constructed for its text, not thrown. -/
def setError (d : BluetoothSocket) (error : SocketError) (_errorString : String) :
    BluetoothSocket :=
  emit { d with error := error } (Effect.errorOccurred error)

/-- Source function `BluetoothSocketPrivate::closeSocket`; `closeRet` is what `::closesocket` returns if it is
called. -/
def closeSocket (d : BluetoothSocket) (closeRet : Int) : BluetoothSocket :=
  let disconnected : Bool := decide (d.state = SocketState.ConnectedState)
  let d1 := setState d SocketState.ClosingState
  let d2 :=
    if d1.socket ≠ INVALID_SOCKET then
      let d1c := emit d1 Effect.closesocket
      if SOCKET_ERROR = closeRet then setError d1c SocketError.OperationError "" else d1c
    else d1
  let d3 := setState d2 SocketState.UnconnectedState
  if disconnected then emit d3 Effect.disconnected else d3

/-- Source function `BluetoothSocket::close`. -/
def close (d : BluetoothSocket) (closeRet : Int) : BluetoothSocket :=
  closeSocket d closeRet

/-- Source function `BluetoothSocket::abort`. -/
def abort (d : BluetoothSocket) (closeRet : Int) : BluetoothSocket :=
  closeSocket d closeRet

/-- The effects a call appended: the part of the trace of `d'` after the trace of `d`. -/
def emitted (d d' : BluetoothSocket) : List Effect :=
  d'.trace.drop d.trace.length

/-! ## connectToService -/

/-- The `do ... while (tryAgain && (tries < 2))` loop of the `WSAEWOULDBLOCK` case.  Each
iteration takes the result of one `getsockopt(SO_ERROR)` call from `polls`.  The result is the
socket and the flag `errorDetected`. -/
def soErrorLoop (d : BluetoothSocket) (value : Int) (tryAgain : Bool) (tries : Nat) :
    List SockOptResult → Option (BluetoothSocket × Bool)
  | [] => none
  | p :: polls =>
    let d1 := emit d Effect.getsockopt
    if p.ret = 0 then
      let value1 := p.value
      let d2 := if value1 ≠ NOERROR then emit d1 Effect.setsockopt else d1
      if value1 = WSAECONNREFUSED then
        some (setState (setError d2 SocketError.NetworkError "Connection refused.")
          SocketState.UnconnectedState, true)
      else if value1 = WSAETIMEDOUT then
        some (setState (setError d2 SocketError.NetworkError "Connection timed out.")
          SocketState.UnconnectedState, true)
      else if value1 = WSAEHOSTUNREACH then
        some (setState (setError d2 SocketError.NetworkError "Destination host unreachable")
          SocketState.UnconnectedState, true)
      else if value1 = WSAEADDRNOTAVAIL then
        some (setState (setError d2 SocketError.NetworkError "Address not available")
          SocketState.UnconnectedState, true)
      else
        let tryAgain1 := if value1 = NOERROR then !tryAgain else tryAgain
        if tryAgain1 && decide (tries + 1 < 2) then
          soErrorLoop d2 value1 tryAgain1 (tries + 1) polls
        else some (d2, false)
    else
      if tryAgain && decide (tries + 1 < 2) then
        soErrorLoop d1 value tryAgain (tries + 1) polls
      else some (d1, false)

/-- The `forever` loop of `connectToService`; each iteration takes one `ConnectAttempt`.  The
result is the socket when the loop is left by `break`. -/
def connectLoop (d : BluetoothSocket) : List ConnectAttempt → Option BluetoothSocket
  | [] => none
  | a :: rest =>
    let d1 := emit d Effect.WSAConnect
    if a.connectResult = SOCKET_ERROR then
      if a.err = WSANOTINITIALISED then some d1
      else if a.err = WSAEISCONN then some (setState d1 SocketState.ConnectedState)
      else if a.err = WSAEWOULDBLOCK then
        match soErrorLoop d1 0 false 0 a.polls with
        | none => none
        | some (d2, errorDetected) =>
          if errorDetected then some d2 else connectLoop d2 rest
      else if a.err = WSAEINPROGRESS then connectLoop d1 rest
      else if a.err = WSAEADDRINUSE then
        some (setError d1 SocketError.NetworkError "Address in use.")
      else if a.err = WSAECONNREFUSED then
        some (setState (setError d1 SocketError.NetworkError "Connection refused.")
          SocketState.UnconnectedState)
      else if a.err = WSAETIMEDOUT then
        some (setError d1 SocketError.NetworkError "Connection timed out.")
      else if a.err = WSAEACCES then
        some (setState (setError d1 SocketError.NetworkError "Socket access error.")
          SocketState.UnconnectedState)
      else if a.err = WSAEHOSTUNREACH then
        some (setState (setError d1 SocketError.NetworkError "Destination host unreachable.")
          SocketState.UnconnectedState)
      else if a.err = WSAENETUNREACH then
        some (setState (setError d1 SocketError.NetworkError "Network unreachable")
          SocketState.UnconnectedState)
      else if a.err = WSAEINVAL ∨ a.err = WSAEALREADY then connectLoop d1 rest
      else some d1
    else some d1

/-- Source function `BluetoothSocket::connectToService(address, openMode)`.  `address` is the 48-bit
device address; `!address` in the source holds exactly for the zero address. -/
def connectToService (d : BluetoothSocket) (address : Nat) (openMode : Nat)
    (attempts : List ConnectAttempt) : Option BluetoothSocket :=
  let d1 := setState d SocketState.ConnectingState
  if address = 0 then
    some (setError (setState d1 SocketState.UnconnectedState) SocketError.HostNotFoundError "")
  else
    let d2 := { d1 with btAddr := address }
    match connectLoop d2 attempts with
    | none => none
    | some d3 =>
      let d4 := emit (setState d3 SocketState.ConnectedState) Effect.connected
      some (emit { d4 with openMode := openMode } (Effect.setOpenMode openMode))

/-! ## readData -/

/-- Source function `BluetoothSocket::readData`; `r` is what the one `::WSARecv` call reports.  The result is
the returned `qint64` and the socket afterwards. -/
def readData (d : BluetoothSocket) (r : RecvResult) : Int × BluetoothSocket :=
  let ret : Int := -1
  let d1 := emit d Effect.WSARecv
  let out : Int × BluetoothSocket :=
    if SOCKET_ERROR = r.ret then
      if r.lastError = WSAEWOULDBLOCK then (-2, d1)
      else if r.lastError = WSAEBADF then
        (ret, setError d1 SocketError.NetworkError "The socket handle is invalid.")
      else if r.lastError = WSAEINVAL then
        (ret, setError d1 SocketError.NetworkError "An invalid argument was supplied.")
      else if r.lastError = WSAECONNRESET then
        (ret, setError d1 SocketError.NetworkError "Connection was closed by the remote host.")
      else if r.lastError = WSAECONNABORTED then
        (ret, setError d1 SocketError.NetworkError "User aborted connection.")
      else (ret, d1)
    else
      if r.lastError = WSAEWOULDBLOCK then (0, d1)
      else (Int.ofNat r.bytesRead, d1)
  (out.1, emit out.2 Effect.setReadComplete)

/-! ## writeData -/

/-- How a call of `writeData` ends: by `return ret`, or by `throw BluetoothException(err)`. -/
inductive WriteOutcome where
  | returned (ret : Int)
  | thrown (err : Int)
  deriving DecidableEq, Repr

/-- The `for (;;)` loop of `writeData` with its exit (`bytesWrittenCondition.wakeAll()` and
`return ret`).  `ret` and `bytesToSend` are the loop variables; each iteration takes the
answer of the transport to one `::WSASend` request from `sends`; `closeRet` is what
`::closesocket` returns if `close()` is reached. -/
def writeLoop (len : Int) (closeRet : Int) (d : BluetoothSocket) (ret bytesToSend : Int) :
    List (SendRequest → SendResult) → Option (WriteOutcome × BluetoothSocket)
  | [] => none
  | send :: sends =>
    let req : SendRequest := { offset := ret, len := bytesToSend % 2 ^ 32 }
    let res := send req
    let d1 := emit d (Effect.WSASend req res)
    let d2 := emit d1 (Effect.bytesWritten res.bytesWritten)
    let ret1 := ret + Int.ofNat res.bytesWritten
    if res.socketRet ≠ SOCKET_ERROR then
      if ret1 = len then
        some (WriteOutcome.returned ret1, emit d2 Effect.bytesWrittenWakeAll)
      else writeLoop len closeRet d2 ret1 bytesToSend sends
    else if res.err = WSAEWOULDBLOCK then
      some (WriteOutcome.returned ret1, emit d2 Effect.bytesWrittenWakeAll)
    else if res.err = WSAENOBUFS then
      writeLoop len closeRet d2 ret1 (len - ret1) sends
    else if res.err = WSAECONNRESET ∨ res.err = WSAECONNABORTED then
      let d3 := close (setError d2 SocketError.NetworkError "") closeRet
      some (WriteOutcome.returned (-1), emit d3 Effect.bytesWrittenWakeAll)
    else some (WriteOutcome.thrown res.err, d2)

/-- Source function `BluetoothSocket::writeData(data, len)`. -/
def writeData (d : BluetoothSocket) (len : Int) (closeRet : Int)
    (sends : List (SendRequest → SendResult)) : Option (WriteOutcome × BluetoothSocket) :=
  writeLoop len closeRet d 0 len sends

/-- A socket as the constructor leaves it: a fresh valid handle, `UnconnectedState`,
`NoSocketError`, empty error string; the trace starts empty. -/
def freshSocket : BluetoothSocket :=
  { socket := 1, btAddr := 0, state := SocketState.UnconnectedState,
    error := SocketError.NoSocketError, errorString := "",
    securityFlags := { encryption := false, authentication := false }, openMode := 0,
    trace := [] }

/-- A connected socket (as after `setSocketDescriptor` with the default `ConnectedState`). -/
def connectedSocket : BluetoothSocket :=
  { freshSocket with state := SocketState.ConnectedState }

/-- A transport that accepts `min (requested length) cap` bytes on every send and never
fails. -/
def cappedTransport (cap : Nat) (req : SendRequest) : SendResult :=
  { socketRet := 0, bytesWritten := min req.len.toNat cap, err := 0 }

/-- A transport script of two answers: the first send accepts `n` bytes, the second send
fails with error code `err` and accepts nothing. -/
def acceptThenFail (n : Nat) (err : Int) : List (SendRequest → SendResult) :=
  [fun _ => { socketRet := 0, bytesWritten := n, err := 0 },
   fun _ => { socketRet := SOCKET_ERROR, bytesWritten := 0, err := err }]

/-- The sum of the counts of the `bytesWritten` signals in a list of effects. -/
def bytesWrittenTotal : List Effect → Nat
  | [] => 0
  | Effect.bytesWritten n :: es => n + bytesWrittenTotal es
  | _ :: es => bytesWrittenTotal es

/-- The transport reported would-block: some `WSASend` in the effects failed with
`WSAEWOULDBLOCK`. -/
def reportedWouldBlock (es : List Effect) : Prop :=
  ∃ req res, Effect.WSASend req res ∈ es ∧ res.socketRet = SOCKET_ERROR ∧
    res.err = WSAEWOULDBLOCK


/-- The effects `closeSocket` appends, as a function of the socket before the call. -/
def closeEffects (d : BluetoothSocket) (closeRet : Int) : List Effect :=
  [Effect.stateChanged SocketState.ClosingState]
    ++ (if d.socket ≠ INVALID_SOCKET then
          Effect.closesocket ::
            (if SOCKET_ERROR = closeRet then [Effect.errorOccurred SocketError.OperationError]
             else [])
        else [])
    ++ [Effect.stateChanged SocketState.UnconnectedState]
    ++ (if d.state = SocketState.ConnectedState then [Effect.disconnected] else [])

/-! ## Construction, destruction, security flags -/

/-- What the native calls of the constructor report: the return value of `WSAStartup`, the
handle `::socket` yields, the return values of `::setsockopt(SO_SNDBUF)` and
`::WSAIoctl(FIONBIO)`, and the content of the uninitialised `btAddress.btAddr`. -/
structure CtorResults where
  startupRet : Int
  socketRet : Nat
  sndbufRet : Int
  ioctlRet : Int
  btAddrInit : Nat
  deriving DecidableEq, Repr

/-- Source function `BluetoothSocketPrivate::BluetoothSocketPrivate(q, socketDescriptor)`.
`winsockInitialized` is the static flag before the call; the result is the new object with the
flag afterwards, or the message of the `BluetoothException` thrown when `WSAStartup` fails. -/
def construct (winsockInitialized : Bool) (socketDescriptor : Nat) (r : CtorResults) :
    Except String (BluetoothSocket × Bool) :=
  let d0 : BluetoothSocket :=
    { socket := INVALID_SOCKET, btAddr := r.btAddrInit,
      state := SocketState.UnconnectedState, error := SocketError.NoSocketError,
      errorString := "", securityFlags := { encryption := false, authentication := false },
      openMode := 0, trace := [] }
  if !winsockInitialized && decide (r.startupRet ≠ 0) then
    Except.error "Unable to initialize Winsock version 2.2"
  else
    let d1 := if !winsockInitialized then emit d0 Effect.WSAStartup else d0
    let d2 :=
      if socketDescriptor = INVALID_SOCKET then
        let d1s := emit { d1 with socket := r.socketRet } Effect.socketCreate
        if d1s.socket = INVALID_SOCKET then setError d1s SocketError.UnknownSocketError ""
        else d1s
      else { d1 with socket := socketDescriptor }
    let d3 := emit d2 Effect.setsockoptSndbuf
    let d4 :=
      if SOCKET_ERROR = r.sndbufRet then
        setError d3 SocketError.UnknownSocketError "Failed to set socket send buffer size."
      else d3
    let d5 := emit d4 Effect.WSAIoctl
    let d6 :=
      if SOCKET_ERROR = r.ioctlRet then setError d5 SocketError.UnknownSocketError "" else d5
    let d7 := emit (emit (emit d6 (Effect.WSACreateEvent EventHandle.readEvent))
      (Effect.WSACreateEvent EventHandle.joinEvent))
      (Effect.WSACreateEvent EventHandle.readCompleteEvent)
    Except.ok (emit d7 Effect.threadStart, true)

/-- Source function `BluetoothSocketPrivate::~BluetoothSocketPrivate()`; `closeRet` is what
`::closesocket` returns if it is called. -/
def destroy (d : BluetoothSocket) (closeRet : Int) : BluetoothSocket :=
  let d1 := emit d (Effect.WSASetEvent EventHandle.joinEvent)
  let d2 := emit d1 (Effect.WSASetEvent EventHandle.readCompleteEvent)
  let d3 := closeSocket d2 closeRet
  let d4 := emit d3 Effect.join
  let d5 := emit d4 (Effect.WSACloseEvent EventHandle.readEvent)
  let d6 := emit d5 (Effect.WSACloseEvent EventHandle.joinEvent)
  let d7 := emit d6 (Effect.WSACloseEvent EventHandle.readCompleteEvent)
  emit d7 Effect.WSACleanup

/-- Source function `BluetoothSocket::setPreferredSecurityFlags(flags)`; `encryptRet` and
`authenticateRet` are what the two `::setsockopt` calls return if they are made. -/
def setPreferredSecurityFlags (d : BluetoothSocket) (flags : SecurityFlags)
    (encryptRet authenticateRet : Int) : BluetoothSocket :=
  let d1 := { d with securityFlags := flags }
  let d2 :=
    if flags.encryption then
      let d1e := emit d1 Effect.setsockoptEncrypt
      if SOCKET_ERROR = encryptRet then
        setError d1e SocketError.OperationError "Failed to set socket encryption."
      else d1e
    else d1
  if flags.authentication then
    let d2a := emit d2 Effect.setsockoptAuthenticate
    if SOCKET_ERROR = authenticateRet then
      setError d2a SocketError.OperationError "Failed to set socket encryption."
    else d2a
  else d2

/-- Source function `BluetoothSocket::errorString()`. -/
def errorString (d : BluetoothSocket) : String :=
  d.errorString

/-- One call of the public interface, with the native results it will meet. -/
inductive Call where
  | connectToService (address openMode : Nat) (attempts : List ConnectAttempt)
  | readData (r : RecvResult)
  | writeData (len closeRet : Int) (sends : List (SendRequest → SendResult))
  | close (closeRet : Int)
  | abort (closeRet : Int)
  | setPreferredSecurityFlags (flags : SecurityFlags) (encryptRet authenticateRet : Int)

/-- The socket after one call; `none` when the call does not return on its native results.
A `writeData` that ends by `throw` leaves the object as it was at the throw. -/
def runCall (d : BluetoothSocket) : Call → Option BluetoothSocket
  | Call.connectToService address openMode attempts =>
    connectToService d address openMode attempts
  | Call.readData r => some (readData d r).2
  | Call.writeData len closeRet sends => (writeData d len closeRet sends).map Prod.snd
  | Call.close closeRet => some (close d closeRet)
  | Call.abort closeRet => some (abort d closeRet)
  | Call.setPreferredSecurityFlags flags encryptRet authenticateRet =>
    some (setPreferredSecurityFlags d flags encryptRet authenticateRet)

/-- The socket after a sequence of calls. -/
def runCalls (d : BluetoothSocket) : List Call → Option BluetoothSocket
  | [] => some d
  | c :: cs =>
    match runCall d c with
    | none => none
    | some d1 => runCalls d1 cs

/-- Follows the spec's words for `abort()`: the same effect as `close()`, with the
graceful-shutdown notification (`disconnected`) skipped. -/
def abortSpec (d : BluetoothSocket) (closeRet : Int) : BluetoothSocket :=
  { close d closeRet with
    trace := d.trace ++ (emitted d (close d closeRet)).filter
      (fun e => decide (e ≠ Effect.disconnected)) }

/-- The steps of tearing a socket down: signalling an event, closing the native handle,
joining the worker, releasing an event handle. -/
def isTeardownStep : Effect → Bool
  | Effect.WSASetEvent _ => true
  | Effect.closesocket => true
  | Effect.join => true
  | Effect.WSACloseEvent _ => true
  | _ => false

/-! ## The ready-read worker -/

/-- The `SO_ERROR` polls after a would-block end with `errorDetected == false`. -/
def pollsUndecided (polls : List SockOptResult) : Bool :=
  match soErrorLoop freshSocket 0 false 0 polls with
  | some (_, false) => true
  | _ => false

/-- A native connect result on which the loop of `connectToService` goes round again:
failure with in-progress, already-in-progress or invalid-argument, or with would-block when
the `SO_ERROR` polls show no terminal condition. -/
def transientAttempt (a : ConnectAttempt) : Bool :=
  decide (a.connectResult = SOCKET_ERROR) &&
    (decide (a.err = WSAEINPROGRESS) || decide (a.err = WSAEALREADY) ||
      decide (a.err = WSAEINVAL) ||
      (decide (a.err = WSAEWOULDBLOCK) && pollsUndecided a.polls))

/-- The number of native connect calls in a list of effects. -/
def connectCalls (es : List Effect) : Nat :=
  es.count Effect.WSAConnect

/-- The number of `SO_ERROR` polls in a list of effects. -/
def pollCalls (es : List Effect) : Nat :=
  es.count Effect.getsockopt

/-- A poll that succeeds and stores one of the four terminal codes of the would-block
case. -/
def terminalPoll (p : SockOptResult) : Bool :=
  decide (p.ret = 0) &&
    (decide (p.value = WSAECONNREFUSED) || decide (p.value = WSAETIMEDOUT) ||
      decide (p.value = WSAEHOSTUNREACH) || decide (p.value = WSAEADDRNOTAVAIL))

/-! ## Sockets of one process -/

/-- One step in the life of the sockets of a process: a socket object is constructed
(`socketDescriptor` and the native results of the constructor), or the live socket at
position `index` is destroyed (`closeRet` is what `::closesocket` returns if it is called). -/
inductive ProcessOp where
  | create (socketDescriptor : Nat) (r : CtorResults)
  | destroy (index : Nat) (closeRet : Int)
  deriving DecidableEq, Repr

/-- The process as far as the sockets are concerned: the static flag
`BluetoothSocketPrivate::winsockInitialized`, the live socket objects, and the effects of all
constructors and destructors run so far, in program order. -/
structure Process where
  winsockInitialized : Bool
  live : List BluetoothSocket
  log : List Effect
  deriving DecidableEq, Repr

/-- The process at start: `winsockInitialized = false` (the static initialisation), no
socket. -/
def initialProcess : Process :=
  { winsockInitialized := false, live := [], log := [] }

/-- One step of the process; `none` when the constructor throws (start-up failed) or when
there is no live socket at the position to destroy. -/
def runOp (p : Process) : ProcessOp → Option Process
  | ProcessOp.create socketDescriptor r =>
    match construct p.winsockInitialized socketDescriptor r with
    | Except.ok (d, w) =>
      some { winsockInitialized := w, live := p.live ++ [d], log := p.log ++ d.trace }
    | Except.error _ => none
  | ProcessOp.destroy index closeRet =>
    match p.live.get? index with
    | some d =>
      some { p with live := p.live.eraseIdx index,
                    log := p.log ++ emitted d (destroy d closeRet) }
    | none => none

/-- A sequence of steps of the process. -/
def runOps (p : Process) : List ProcessOp → Option Process
  | [] => some p
  | op :: ops =>
    match runOp p op with
    | none => none
    | some p1 => runOps p1 ops

/-- The number of sockets constructed by a sequence of steps. -/
def creations : List ProcessOp → Nat
  | [] => 0
  | ProcessOp.create _ _ :: ops => creations ops + 1
  | ProcessOp.destroy _ _ :: ops => creations ops

/-- The number of sockets destroyed by a sequence of steps. -/
def destructions : List ProcessOp → Nat
  | [] => 0
  | ProcessOp.create _ _ :: ops => destructions ops
  | ProcessOp.destroy _ _ :: ops => destructions ops + 1

/-! ## Basic facts about the helpers -/

@[simp] theorem emit_trace (d : BluetoothSocket) (e : Effect) :
    (emit d e).trace = d.trace ++ [e] := rfl

@[simp] theorem emit_state (d : BluetoothSocket) (e : Effect) : (emit d e).state = d.state := rfl

@[simp] theorem emit_error (d : BluetoothSocket) (e : Effect) : (emit d e).error = d.error := rfl

@[simp] theorem emit_socket (d : BluetoothSocket) (e : Effect) :
    (emit d e).socket = d.socket := rfl

@[simp] theorem setState_trace (d : BluetoothSocket) (s : SocketState) :
    (setState d s).trace = d.trace ++ [Effect.stateChanged s] := rfl

@[simp] theorem setState_state (d : BluetoothSocket) (s : SocketState) :
    (setState d s).state = s := rfl

@[simp] theorem setState_error (d : BluetoothSocket) (s : SocketState) :
    (setState d s).error = d.error := rfl

@[simp] theorem setState_socket (d : BluetoothSocket) (s : SocketState) :
    (setState d s).socket = d.socket := rfl

@[simp] theorem setError_trace (d : BluetoothSocket) (e : SocketError) (msg : String) :
    (setError d e msg).trace = d.trace ++ [Effect.errorOccurred e] := rfl

@[simp] theorem setError_state (d : BluetoothSocket) (e : SocketError) (msg : String) :
    (setError d e msg).state = d.state := rfl

@[simp] theorem setError_error (d : BluetoothSocket) (e : SocketError) (msg : String) :
    (setError d e msg).error = e := rfl

@[simp] theorem setError_socket (d : BluetoothSocket) (e : SocketError) (msg : String) :
    (setError d e msg).socket = d.socket := rfl

theorem closeSocket_trace (d : BluetoothSocket) (closeRet : Int) :
    (closeSocket d closeRet).trace = d.trace ++ closeEffects d closeRet := by
  unfold closeSocket closeEffects
  by_cases hs : d.socket = INVALID_SOCKET <;> by_cases hr : SOCKET_ERROR = closeRet <;>
    by_cases hc : d.state = SocketState.ConnectedState <;> simp [hs, hr, hc]

@[simp] theorem closeSocket_state (d : BluetoothSocket) (closeRet : Int) :
    (closeSocket d closeRet).state = SocketState.UnconnectedState := by
  unfold closeSocket
  by_cases hc : d.state = SocketState.ConnectedState <;> simp [hc]

@[simp] theorem closeSocket_socket (d : BluetoothSocket) (closeRet : Int) :
    (closeSocket d closeRet).socket = d.socket := by
  unfold closeSocket
  by_cases hs : d.socket = INVALID_SOCKET <;> by_cases hr : SOCKET_ERROR = closeRet <;>
    by_cases hc : d.state = SocketState.ConnectedState <;> simp [hs, hr, hc]

theorem closeSocket_error (d : BluetoothSocket) (closeRet : Int) :
    (closeSocket d closeRet).error =
      if d.socket ≠ INVALID_SOCKET ∧ SOCKET_ERROR = closeRet then SocketError.OperationError
      else d.error := by
  unfold closeSocket
  by_cases hs : d.socket = INVALID_SOCKET <;> by_cases hr : SOCKET_ERROR = closeRet <;>
    by_cases hc : d.state = SocketState.ConnectedState <;> simp [hs, hr, hc]

theorem emitted_of_trace (d d' : BluetoothSocket) (es : List Effect)
    (h : d'.trace = d.trace ++ es) : emitted d d' = es := by
  simp [emitted, h]

/-! ## Connecting -/

/-- C1: for a zero address, `connectToService` returns with `state() == UnconnectedState` and
`error() == HostNotFoundError`, whatever the native results would have been, and the only
effects are the signals `stateChanged(Connecting)`, `stateChanged(Unconnected)` and
`error(HostNotFoundError)`: no native connect call (and no other native call) is issued. -/
theorem connectToService_zero_address (d : BluetoothSocket) (openMode : Nat)
    (attempts : List ConnectAttempt) :
    ∃ d', connectToService d 0 openMode attempts = some d' ∧
      d'.state = SocketState.UnconnectedState ∧
      d'.error = SocketError.HostNotFoundError ∧
      emitted d d' =
        [Effect.stateChanged SocketState.ConnectingState,
         Effect.stateChanged SocketState.UnconnectedState,
         Effect.errorOccurred SocketError.HostNotFoundError] ∧
      Effect.WSAConnect ∉ emitted d d' := by
  refine ⟨_, rfl, rfl, rfl, ?_⟩
  have h : emitted d (setError (setState (setState d SocketState.ConnectingState)
      SocketState.UnconnectedState) SocketError.HostNotFoundError "") =
      [Effect.stateChanged SocketState.ConnectingState,
       Effect.stateChanged SocketState.UnconnectedState,
       Effect.errorOccurred SocketError.HostNotFoundError] :=
    emitted_of_trace _ _ _ (by simp)
  refine ⟨h, ?_⟩
  rw [h]
  decide

/-- C2 (what the code does): for a non-zero address, when the native connect is refused,
either directly or through `SO_ERROR` after would-block, `connectToService` records
`NetworkError` and sets `UnconnectedState`, and then leaves the retry loop by `break` and
runs the common exit: the state sequence is Connecting, Unconnected, Connected, the
`connected` signal is emitted, and `state() == ConnectedState` when the call returns. -/
theorem connectToService_refused_ends_connected (d : BluetoothSocket) (address openMode : Nat)
    (polls polls' : List SockOptResult) (rest : List ConnectAttempt)
    (haddr : address ≠ 0) :
    (∃ d', connectToService d address openMode
        ({ connectResult := SOCKET_ERROR, err := WSAECONNREFUSED, polls := polls } :: rest)
          = some d' ∧
      d'.state = SocketState.ConnectedState ∧ d'.error = SocketError.NetworkError ∧
      emitted d d' =
        [Effect.stateChanged SocketState.ConnectingState, Effect.WSAConnect,
         Effect.errorOccurred SocketError.NetworkError,
         Effect.stateChanged SocketState.UnconnectedState,
         Effect.stateChanged SocketState.ConnectedState, Effect.connected,
         Effect.setOpenMode openMode]) ∧
    (∃ d', connectToService d address openMode
        ({ connectResult := SOCKET_ERROR, err := WSAEWOULDBLOCK,
           polls := { ret := 0, value := WSAECONNREFUSED } :: polls' } :: rest) = some d' ∧
      d'.state = SocketState.ConnectedState ∧ d'.error = SocketError.NetworkError ∧
      emitted d d' =
        [Effect.stateChanged SocketState.ConnectingState, Effect.WSAConnect,
         Effect.getsockopt, Effect.setsockopt,
         Effect.errorOccurred SocketError.NetworkError,
         Effect.stateChanged SocketState.UnconnectedState,
         Effect.stateChanged SocketState.ConnectedState, Effect.connected,
         Effect.setOpenMode openMode]) := by
  constructor
  · simp [connectToService, connectLoop, haddr, emitted]
  · simp [connectToService, connectLoop, soErrorLoop, haddr, emitted]

/-- C2, at a concrete input: address 1 on a fresh socket, one refused native connect. -/
theorem connectToService_refused_ends_connected_witness :
    (1 : Nat) ≠ 0 ∧
    ((∃ d', connectToService freshSocket 1 3
        ({ connectResult := SOCKET_ERROR, err := WSAECONNREFUSED, polls := [] } :: [])
          = some d' ∧
      d'.state = SocketState.ConnectedState ∧ d'.error = SocketError.NetworkError ∧
      emitted freshSocket d' =
        [Effect.stateChanged SocketState.ConnectingState, Effect.WSAConnect,
         Effect.errorOccurred SocketError.NetworkError,
         Effect.stateChanged SocketState.UnconnectedState,
         Effect.stateChanged SocketState.ConnectedState, Effect.connected,
         Effect.setOpenMode 3]) ∧
    (∃ d', connectToService freshSocket 1 3
        ({ connectResult := SOCKET_ERROR, err := WSAEWOULDBLOCK,
           polls := { ret := 0, value := WSAECONNREFUSED } :: [] } :: []) = some d' ∧
      d'.state = SocketState.ConnectedState ∧ d'.error = SocketError.NetworkError ∧
      emitted freshSocket d' =
        [Effect.stateChanged SocketState.ConnectingState, Effect.WSAConnect,
         Effect.getsockopt, Effect.setsockopt,
         Effect.errorOccurred SocketError.NetworkError,
         Effect.stateChanged SocketState.UnconnectedState,
         Effect.stateChanged SocketState.ConnectedState, Effect.connected,
         Effect.setOpenMode 3])) :=
  ⟨by decide, connectToService_refused_ends_connected freshSocket 1 3 [] [] [] (by decide)⟩

/-! ## Reading -/

/-- C7: when `WSARecv` fails with `WSAEWOULDBLOCK`, `readData` returns `-2`, a negative value
that is not `0` and differs from what `readData` returns for every other failure code (on any
socket), and `error()` is left as it was. -/
theorem readData_wouldBlock_sentinel (d : BluetoothSocket) (r : RecvResult)
    (hfail : r.ret = SOCKET_ERROR) (hcode : r.lastError = WSAEWOULDBLOCK) :
    (readData d r).1 = -2 ∧ (readData d r).1 < 0 ∧ (readData d r).1 ≠ 0 ∧
      (readData d r).2.error = d.error ∧
      ∀ (d2 : BluetoothSocket) (r2 : RecvResult), r2.ret = SOCKET_ERROR →
        r2.lastError ≠ WSAEWOULDBLOCK →
        (readData d2 r2).1 = -1 ∧ (readData d2 r2).1 ≠ (readData d r).1 := by
  have h1 : (readData d r).1 = -2 := by simp [readData, hfail, hcode]
  refine ⟨h1, by rw [h1]; decide, by rw [h1]; decide, by simp [readData, hfail, hcode], ?_⟩
  intro d2 r2 hf2 hc2
  have h2 : (readData d2 r2).1 = -1 := by
    simp only [readData, hf2, if_true, if_neg hc2]
    split_ifs <;> rfl
  exact ⟨h2, by rw [h1, h2]; decide⟩

/-- C7, at a concrete input: a would-block receive on a connected socket. -/
theorem readData_wouldBlock_sentinel_witness :
    (RecvResult.mk SOCKET_ERROR 0 WSAEWOULDBLOCK).ret = SOCKET_ERROR ∧
      (RecvResult.mk SOCKET_ERROR 0 WSAEWOULDBLOCK).lastError = WSAEWOULDBLOCK ∧
      (readData connectedSocket
        { ret := SOCKET_ERROR, bytesRead := 0, lastError := WSAEWOULDBLOCK }).1 = -2 ∧
      (readData connectedSocket
        { ret := SOCKET_ERROR, bytesRead := 0, lastError := WSAEWOULDBLOCK }).2.error
        = SocketError.NoSocketError :=
  have h := readData_wouldBlock_sentinel connectedSocket
    { ret := SOCKET_ERROR, bytesRead := 0, lastError := WSAEWOULDBLOCK } rfl rfl
  ⟨rfl, rfl, h.1, h.2.2.2.1⟩

/-- C8: when `WSARecv` fails with `WSAEBADF`, `WSAEINVAL`, `WSAECONNRESET` or
`WSAECONNABORTED`, `readData` records `NetworkError` (emitting the error signal once) and
returns `-1`, which is neither a byte count nor the would-block value `-2`. -/
theorem readData_terminal_error (d : BluetoothSocket) (r : RecvResult)
    (hfail : r.ret = SOCKET_ERROR)
    (hcode : r.lastError = WSAEBADF ∨ r.lastError = WSAEINVAL ∨
      r.lastError = WSAECONNRESET ∨ r.lastError = WSAECONNABORTED) :
    (readData d r).1 = -1 ∧ (readData d r).1 ≠ -2 ∧ (readData d r).1 < 0 ∧
      (readData d r).2.error = SocketError.NetworkError ∧
      emitted d (readData d r).2 =
        [Effect.WSARecv, Effect.errorOccurred SocketError.NetworkError,
         Effect.setReadComplete] := by
  rcases hcode with h | h | h | h <;> simp [readData, hfail, h, emitted]

/-- C8, at a concrete input: a connection-reset receive on a connected socket. -/
theorem readData_terminal_error_witness :
    (RecvResult.mk SOCKET_ERROR 0 WSAECONNRESET).ret = SOCKET_ERROR ∧
      (RecvResult.mk SOCKET_ERROR 0 WSAECONNRESET).lastError = WSAECONNRESET ∧
      (readData connectedSocket
        { ret := SOCKET_ERROR, bytesRead := 0, lastError := WSAECONNRESET }).1 = -1 ∧
      (readData connectedSocket
        { ret := SOCKET_ERROR, bytesRead := 0, lastError := WSAECONNRESET }).2.error
        = SocketError.NetworkError :=
  have h := readData_terminal_error connectedSocket
    { ret := SOCKET_ERROR, bytesRead := 0, lastError := WSAECONNRESET } rfl
    (Or.inr (Or.inr (Or.inl rfl)))
  ⟨rfl, rfl, h.1, h.2.2.2.1⟩

/-! ## Closing -/

/-- C9: for two consecutive `close()` calls on a connected socket, whatever the two native
close calls return, the first call emits `disconnected` exactly once, the second call does not
emit it, and the two calls together emit it exactly once. -/
theorem close_twice_disconnected_once (d : BluetoothSocket) (closeRet1 closeRet2 : Int)
    (hconn : d.state = SocketState.ConnectedState) :
    (emitted d (close d closeRet1)).count Effect.disconnected = 1 ∧
      (emitted (close d closeRet1) (close (close d closeRet1) closeRet2)).count
        Effect.disconnected = 0 ∧
      (emitted d (close (close d closeRet1) closeRet2)).count Effect.disconnected = 1 := by
  have e1 : emitted d (close d closeRet1) = closeEffects d closeRet1 :=
    emitted_of_trace _ _ _ (closeSocket_trace d closeRet1)
  have e2 : emitted (close d closeRet1) (close (close d closeRet1) closeRet2)
      = closeEffects (close d closeRet1) closeRet2 :=
    emitted_of_trace _ _ _ (closeSocket_trace _ closeRet2)
  have e12 : emitted d (close (close d closeRet1) closeRet2)
      = closeEffects d closeRet1 ++ closeEffects (close d closeRet1) closeRet2 :=
    emitted_of_trace _ _ _ (by
      show (closeSocket (closeSocket d closeRet1) closeRet2).trace = _
      rw [closeSocket_trace, closeSocket_trace, List.append_assoc]
      rfl)
  have c1 : (closeEffects d closeRet1).count Effect.disconnected = 1 := by
    unfold closeEffects
    by_cases hs : d.socket = INVALID_SOCKET <;> by_cases hr : SOCKET_ERROR = closeRet1 <;>
      simp [hs, hr, hconn]
  have c2 : (closeEffects (close d closeRet1) closeRet2).count Effect.disconnected = 0 := by
    unfold closeEffects
    by_cases hs : d.socket = INVALID_SOCKET <;> by_cases hr : SOCKET_ERROR = closeRet2 <;>
      simp [hs, hr, close]
  rw [e1, e2, e12, List.count_append, c1, c2]
  exact ⟨rfl, rfl, rfl⟩

/-- C9, at a concrete input: a connected socket, the first native close succeeding and the
second one failing. -/
theorem close_twice_disconnected_once_witness :
    connectedSocket.state = SocketState.ConnectedState ∧
      (emitted connectedSocket (close (close connectedSocket 0) SOCKET_ERROR)).count
        Effect.disconnected = 1 :=
  ⟨rfl, (close_twice_disconnected_once connectedSocket 0 SOCKET_ERROR rfl).2.2⟩

/-- C10 (refuted as stated): on a connected socket closed once, a second `close()` whose
native close fails emits `stateChanged(Closing)`, calls `closesocket` again, emits
`error(OperationError)` and `stateChanged(Unconnected)`, and changes `error()` from
`NoSocketError` to `OperationError`; so it is not a no-op. -/
theorem close_second_not_noop :
    emitted (close connectedSocket 0) (close (close connectedSocket 0) SOCKET_ERROR) =
        [Effect.stateChanged SocketState.ClosingState, Effect.closesocket,
         Effect.errorOccurred SocketError.OperationError,
         Effect.stateChanged SocketState.UnconnectedState] ∧
      (close connectedSocket 0).error = SocketError.NoSocketError ∧
      (close (close connectedSocket 0) SOCKET_ERROR).error = SocketError.OperationError ∧
      ¬ ((close (close connectedSocket 0) SOCKET_ERROR).error = (close connectedSocket 0).error ∧
          emitted (close connectedSocket 0) (close (close connectedSocket 0) SOCKET_ERROR) = [] ∧
          Effect.closesocket ∉
            emitted (close connectedSocket 0) (close (close connectedSocket 0) SOCKET_ERROR)) := by
  decide

/-- C10 (amended): a second `close()` keeps `state()` at `UnconnectedState` as the first one
left it and emits neither `disconnected` nor `connected`, but it is not a no-op: it emits
`stateChanged(Closing)` and `stateChanged(Unconnected)` again and, the handle not having been
invalidated by the first call, runs the native close again when the handle is valid,
recording `OperationError` (with its error signal) when that call fails; `error()` is left
as the first `close()` left it exactly when no native close failure is reported. -/
theorem close_second_effects (d : BluetoothSocket) (closeRet1 closeRet2 : Int) :
    (close (close d closeRet1) closeRet2).state = (close d closeRet1).state ∧
      (close d closeRet1).state = SocketState.UnconnectedState ∧
      emitted (close d closeRet1) (close (close d closeRet1) closeRet2) =
        [Effect.stateChanged SocketState.ClosingState]
          ++ (if d.socket ≠ INVALID_SOCKET then
                Effect.closesocket ::
                  (if SOCKET_ERROR = closeRet2 then
                     [Effect.errorOccurred SocketError.OperationError]
                   else [])
              else [])
          ++ [Effect.stateChanged SocketState.UnconnectedState] ∧
      Effect.disconnected ∉ emitted (close d closeRet1) (close (close d closeRet1) closeRet2) ∧
      Effect.connected ∉ emitted (close d closeRet1) (close (close d closeRet1) closeRet2) ∧
      (close (close d closeRet1) closeRet2).error =
        (if d.socket ≠ INVALID_SOCKET ∧ SOCKET_ERROR = closeRet2 then SocketError.OperationError
         else (close d closeRet1).error) := by
  have e2 : emitted (close d closeRet1) (close (close d closeRet1) closeRet2)
      = closeEffects (close d closeRet1) closeRet2 :=
    emitted_of_trace _ _ _ (closeSocket_trace _ closeRet2)
  have hce : closeEffects (close d closeRet1) closeRet2 =
      [Effect.stateChanged SocketState.ClosingState]
          ++ (if d.socket ≠ INVALID_SOCKET then
                Effect.closesocket ::
                  (if SOCKET_ERROR = closeRet2 then
                     [Effect.errorOccurred SocketError.OperationError]
                   else [])
              else [])
          ++ [Effect.stateChanged SocketState.UnconnectedState] := by
    simp [closeEffects, close]
  refine ⟨by simp [close], by simp [close], by rw [e2, hce], ?_, ?_, ?_⟩
  · rw [e2, hce]
    by_cases hs : d.socket = INVALID_SOCKET <;> by_cases hr : SOCKET_ERROR = closeRet2 <;>
      simp [hs, hr]
  · rw [e2, hce]
    by_cases hs : d.socket = INVALID_SOCKET <;> by_cases hr : SOCKET_ERROR = closeRet2 <;>
      simp [hs, hr]
  · show (closeSocket (closeSocket d closeRet1) closeRet2).error = _
    rw [closeSocket_error, closeSocket_socket]
    rfl

/-! ## Writing -/

theorem writeLoop_capped_none (closeRet : Int) (n : Nat) :
    ∀ (d : BluetoothSocket) (ret : Int), ret % 65535 = 0 →
      writeLoop 200000 closeRet d ret 200000 (List.replicate n (cappedTransport 65535))
        = none := by
  induction n with
  | zero => intro d ret _; rfl
  | succ n ih =>
    intro d ret hret
    have hne : ¬ (ret + 65535 = 200000) := by omega
    rw [List.replicate_succ]
    simp only [writeLoop, cappedTransport]
    norm_num
    rw [if_neg hne]
    exact ih _ _ (by omega)

theorem reportedWouldBlock_append_left (es es' : List Effect) (h : reportedWouldBlock es') :
    reportedWouldBlock (es ++ es') := by
  obtain ⟨req, res, hmem, h1, h2⟩ := h
  exact ⟨req, res, List.mem_append_right _ hmem, h1, h2⟩

theorem writeLoop_returned (len closeRet : Int) (sends : List (SendRequest → SendResult)) :
    ∀ (d : BluetoothSocket) (ret bytesToSend r : Int) (d' : BluetoothSocket),
      writeLoop len closeRet d ret bytesToSend sends = some (WriteOutcome.returned r, d') →
      ∃ es, d'.trace = d.trace ++ es ∧
        (r = len ∨ d'.error ≠ SocketError.NoSocketError ∨ reportedWouldBlock es) := by
  induction sends with
  | nil => intro d ret bts r d' h; simp [writeLoop] at h
  | cons send sends ih =>
    intro d ret bts r d' h
    simp only [writeLoop] at h
    generalize send { offset := ret, len := bts % 2 ^ 32 } = res at h
    split_ifs at h with h1 h2 h3 h4 h5
    · simp only [Option.some.injEq, Prod.mk.injEq, WriteOutcome.returned.injEq] at h
      obtain ⟨hr, hd⟩ := h
      subst hd
      exact ⟨[Effect.WSASend { offset := ret, len := bts % 2 ^ 32 } res,
        Effect.bytesWritten res.bytesWritten, Effect.bytesWrittenWakeAll], by simp,
        Or.inl (by rw [← hr, h2])⟩
    · obtain ⟨es, htr, hcl⟩ := ih _ _ _ _ _ h
      refine ⟨[Effect.WSASend { offset := ret, len := bts % 2 ^ 32 } res,
        Effect.bytesWritten res.bytesWritten] ++ es, by simp [htr], ?_⟩
      rcases hcl with hcl | hcl | hcl
      · exact Or.inl hcl
      · exact Or.inr (Or.inl hcl)
      · exact Or.inr (Or.inr (reportedWouldBlock_append_left _ es hcl))
    · simp only [Option.some.injEq, Prod.mk.injEq, WriteOutcome.returned.injEq] at h
      obtain ⟨_, hd⟩ := h
      subst hd
      exact ⟨[Effect.WSASend { offset := ret, len := bts % 2 ^ 32 } res,
        Effect.bytesWritten res.bytesWritten, Effect.bytesWrittenWakeAll], by simp,
        Or.inr (Or.inr ⟨_, res, List.mem_cons_self _ _, not_not.mp h1, h3⟩)⟩
    · obtain ⟨es, htr, hcl⟩ := ih _ _ _ _ _ h
      refine ⟨[Effect.WSASend { offset := ret, len := bts % 2 ^ 32 } res,
        Effect.bytesWritten res.bytesWritten] ++ es, by simp [htr], ?_⟩
      rcases hcl with hcl | hcl | hcl
      · exact Or.inl hcl
      · exact Or.inr (Or.inl hcl)
      · exact Or.inr (Or.inr (reportedWouldBlock_append_left _ es hcl))
    · simp only [Option.some.injEq, Prod.mk.injEq, WriteOutcome.returned.injEq] at h
      obtain ⟨_, hd⟩ := h
      subst hd
      refine ⟨[Effect.WSASend { offset := ret, len := bts % 2 ^ 32 } res,
        Effect.bytesWritten res.bytesWritten, Effect.errorOccurred SocketError.NetworkError]
        ++ closeEffects (setError (emit (emit d
            (Effect.WSASend { offset := ret, len := bts % 2 ^ 32 } res))
            (Effect.bytesWritten res.bytesWritten)) SocketError.NetworkError "") closeRet
        ++ [Effect.bytesWrittenWakeAll], ?_, Or.inr (Or.inl ?_)⟩
      · simp only [emit_trace, close, closeSocket_trace, setError_trace, List.append_assoc,
          List.cons_append, List.nil_append]
      · simp only [emit_error, close, closeSocket_error]
        split_ifs <;> simp
    · simp at h

/-- C3 (what the code does): on a transport that accepts `min (requested length) 65535`
bytes per send and never fails, `writeData` of 200000 bytes has not returned after any number
`n` of sends.  After a successful short send the loop reaches `continue`, which skips
`bytesToSend = len - ret`; every send therefore asks for 200000 bytes again, the count of
accepted bytes (an unbounded integer here) runs 65535, 131070, 196605, 262140, ... and
never equals 200000.  Cutting the
run by a would-block answer to the fifth send shows the four requests and a return value of
262140 with bytes-written events summing to 262140. -/
theorem writeData_capped_transport_overruns (d : BluetoothSocket) (closeRet : Int) (n : Nat) :
    writeData d 200000 closeRet (List.replicate n (cappedTransport 65535)) = none ∧
    ∃ d', writeData freshSocket 200000 0
        (List.replicate 4 (cappedTransport 65535) ++
          [fun _ => { socketRet := SOCKET_ERROR, bytesWritten := 0, err := WSAEWOULDBLOCK }])
        = some (WriteOutcome.returned 262140, d') ∧
      bytesWrittenTotal (emitted freshSocket d') = 262140 ∧
      (emitted freshSocket d').take 8 =
        [Effect.WSASend { offset := 0, len := 200000 }
           { socketRet := 0, bytesWritten := 65535, err := 0 },
         Effect.bytesWritten 65535,
         Effect.WSASend { offset := 65535, len := 200000 }
           { socketRet := 0, bytesWritten := 65535, err := 0 },
         Effect.bytesWritten 65535,
         Effect.WSASend { offset := 131070, len := 200000 }
           { socketRet := 0, bytesWritten := 65535, err := 0 },
         Effect.bytesWritten 65535,
         Effect.WSASend { offset := 196605, len := 200000 }
           { socketRet := 0, bytesWritten := 65535, err := 0 },
         Effect.bytesWritten 65535] := by
  refine ⟨writeLoop_capped_none closeRet n d 0 (by decide), _, rfl, ?_, ?_⟩
  · decide
  · decide

/-- C4: whenever `writeData` returns a count (on any buffer length, any socket and any
sequence of answers of the transport), the count equals the input length, or `error()` is not
`NoSocketError` after the call, or a `WSASend` of this call failed with `WSAEWOULDBLOCK`. -/
theorem writeData_short_count_not_silent (d : BluetoothSocket) (len closeRet : Int)
    (sends : List (SendRequest → SendResult)) (r : Int) (d' : BluetoothSocket)
    (h : writeData d len closeRet sends = some (WriteOutcome.returned r, d')) :
    r = len ∨ d'.error ≠ SocketError.NoSocketError ∨ reportedWouldBlock (emitted d d') := by
  obtain ⟨es, htr, hcl⟩ := writeLoop_returned len closeRet sends d 0 len r d' h
  rw [emitted_of_trace d d' es htr]
  exact hcl

/-- C4, at a concrete input: 10 bytes to write, the transport accepts 3 and then reports
would-block; the call returns 3. -/
theorem writeData_short_count_not_silent_witness :
    ∃ d', writeData connectedSocket 10 0 (acceptThenFail 3 WSAEWOULDBLOCK)
        = some (WriteOutcome.returned 3, d') ∧
      ((3 : Int) = 10 ∨ d'.error ≠ SocketError.NoSocketError ∨
        reportedWouldBlock (emitted connectedSocket d')) :=
  ⟨_, rfl, writeData_short_count_not_silent connectedSocket 10 0
    (acceptThenFail 3 WSAEWOULDBLOCK) 3 _ rfl⟩

/-- C5 (refuted as stated): 10 bytes to write on a connected socket, the transport accepts 3
bytes and then fails with `WSAECONNRESET`: `writeData` returns `-1`, not the 3 bytes sent so
far (the bytes-written events of the call sum to 3). -/
theorem writeData_reset_returns_minus_one :
    ∃ d', writeData connectedSocket 10 0 (acceptThenFail 3 WSAECONNRESET)
        = some (WriteOutcome.returned (-1), d') ∧
      bytesWrittenTotal (emitted connectedSocket d') = 3 ∧
      ¬ (writeData connectedSocket 10 0 (acceptThenFail 3 WSAECONNRESET)
        = some (WriteOutcome.returned 3, d')) := by
  refine ⟨_, rfl, ?_, ?_⟩
  · decide
  · decide

/-- C5 (amended): when a `WSASend` fails with `WSAECONNRESET` or `WSAECONNABORTED` at any
point of the write loop (`ret` bytes accepted so far), the call emits `error(NetworkError)`,
closes the socket (`state() == UnconnectedState`) and returns `-1`; afterwards `error()` is
`NetworkError`, unless the native close of a valid handle fails, in which case it is
`OperationError`. -/
theorem writeLoop_reset_closes_returns_minus_one (len closeRet : Int) (d : BluetoothSocket)
    (ret bytesToSend : Int) (send : SendRequest → SendResult)
    (sends : List (SendRequest → SendResult))
    (hfail : (send { offset := ret, len := bytesToSend % 2 ^ 32 }).socketRet = SOCKET_ERROR)
    (hcode : (send { offset := ret, len := bytesToSend % 2 ^ 32 }).err = WSAECONNRESET ∨
      (send { offset := ret, len := bytesToSend % 2 ^ 32 }).err = WSAECONNABORTED) :
    ∃ d', writeLoop len closeRet d ret bytesToSend (send :: sends)
        = some (WriteOutcome.returned (-1), d') ∧
      d'.state = SocketState.UnconnectedState ∧
      Effect.errorOccurred SocketError.NetworkError ∈ emitted d d' ∧
      d'.error = (if d.socket ≠ INVALID_SOCKET ∧ SOCKET_ERROR = closeRet
        then SocketError.OperationError else SocketError.NetworkError) := by
  have hwb : ¬ (send { offset := ret, len := bytesToSend % 2 ^ 32 }).err = WSAEWOULDBLOCK := by
    rcases hcode with h | h <;> rw [h] <;> decide
  have hnb : ¬ (send { offset := ret, len := bytesToSend % 2 ^ 32 }).err = WSAENOBUFS := by
    rcases hcode with h | h <;> rw [h] <;> decide
  have hrun : writeLoop len closeRet d ret bytesToSend (send :: sends) =
      some (WriteOutcome.returned (-1),
        emit (close (setError (emit (emit d
          (Effect.WSASend { offset := ret, len := bytesToSend % 2 ^ 32 }
            (send { offset := ret, len := bytesToSend % 2 ^ 32 })))
          (Effect.bytesWritten
            (send { offset := ret, len := bytesToSend % 2 ^ 32 }).bytesWritten))
          SocketError.NetworkError "") closeRet) Effect.bytesWrittenWakeAll) := by
    simp only [writeLoop]
    rw [if_neg (not_not.mpr hfail), if_neg hwb, if_neg hnb, if_pos hcode]
  refine ⟨_, hrun, ?_, ?_, ?_⟩
  · simp [close]
  · simp [emitted, close, closeSocket_trace]
  · simp only [emit_error, close, closeSocket_error, setError_socket, emit_socket,
      setError_error]

/-- C5 (amended), at a concrete input: 3 bytes accepted so far, then a connection reset. -/
theorem writeLoop_reset_closes_returns_minus_one_witness :
    ∃ d', writeLoop 10 0 connectedSocket 3 10
        [fun _ => { socketRet := SOCKET_ERROR, bytesWritten := 0, err := WSAECONNRESET }]
        = some (WriteOutcome.returned (-1), d') ∧
      d'.state = SocketState.UnconnectedState ∧
      Effect.errorOccurred SocketError.NetworkError ∈ emitted connectedSocket d' ∧
      d'.error = (if connectedSocket.socket ≠ INVALID_SOCKET ∧ SOCKET_ERROR = (0 : Int)
        then SocketError.OperationError else SocketError.NetworkError) :=
  writeLoop_reset_closes_returns_minus_one 10 0 connectedSocket 3 10
    (fun _ => { socketRet := SOCKET_ERROR, bytesWritten := 0, err := WSAECONNRESET }) []
    rfl (Or.inl rfl)

/-! ## Native error codes and how the calls end -/

/-- C6 (refuted as stated): 10 bytes to write on a connected socket, the transport accepts 3
bytes and then fails with `WSAENOTCONN`: `writeData` ends by
`throw BluetoothException(err)`, it does not return a value. -/
theorem writeData_unlisted_error_throws :
    ∃ d', writeData connectedSocket 10 0 (acceptThenFail 3 WSAENOTCONN)
        = some (WriteOutcome.thrown WSAENOTCONN, d') ∧
      ∀ (r : Int) (d'' : BluetoothSocket),
        writeData connectedSocket 10 0 (acceptThenFail 3 WSAENOTCONN)
          ≠ some (WriteOutcome.returned r, d'') := by
  refine ⟨_, rfl, ?_⟩
  intro r d'' h
  have h2 : writeData connectedSocket 10 0 (acceptThenFail 3 WSAENOTCONN)
      = some (WriteOutcome.thrown WSAENOTCONN, _) := rfl
  rw [h2] at h
  simp at h

theorem connectLoop_returns_of_not_retried (d : BluetoothSocket) (a : ConnectAttempt)
    (rest : List ConnectAttempt)
    (hc1 : a.err ≠ WSAEWOULDBLOCK) (hc2 : a.err ≠ WSAEINPROGRESS) (hc3 : a.err ≠ WSAEINVAL)
    (hc4 : a.err ≠ WSAEALREADY) :
    (connectLoop d (a :: rest)).isSome = true := by
  unfold connectLoop
  have hc34 : ¬ (a.err = WSAEINVAL ∨ a.err = WSAEALREADY) := not_or.mpr ⟨hc3, hc4⟩
  simp only [if_neg hc1, if_neg hc2, if_neg hc34]
  split_ifs <;> rfl

theorem connectToService_returns_of_loop (d : BluetoothSocket) (address openMode : Nat)
    (attempts : List ConnectAttempt)
    (h : ∀ d1, (connectLoop d1 attempts).isSome = true) :
    (connectToService d address openMode attempts).isSome = true := by
  unfold connectToService
  by_cases h0 : address = 0
  · simp [h0]
  · simp only [h0, if_false]
    have h1 := h { setState d SocketState.ConnectingState with btAddr := address }
    cases hl : connectLoop { setState d SocketState.ConnectingState with btAddr := address }
      attempts with
    | none => rw [hl] at h1; simp at h1
    | some d3 => rfl

theorem readData_values (d : BluetoothSocket) (r : RecvResult) :
    (readData d r).1 = -2 ∨ (readData d r).1 = -1 ∨ (readData d r).1 = 0 ∨
      (readData d r).1 = Int.ofNat r.bytesRead := by
  unfold readData
  split_ifs <;> simp

/-- C6 (amended): `connectToService` and `readData` end by returning, `writeData` does so
only for some codes.
* `connectToService` returns on every native connect result whose error code is not one of
  the four codes on which the loop may issue the native connect again (would-block,
  in-progress, invalid-argument, already-in-progress).
* `readData` returns `-2`, `-1`, `0` or the byte count for every receive result.
* When a `WSASend` fails, `writeData` returns a value for would-block, connection-reset and
  connection-aborted, goes on to the next send for no-buffer-space, and for every other error
  code ends by `throw BluetoothException(err)`. -/
theorem native_error_outcomes (d : BluetoothSocket) (address openMode : Nat)
    (a : ConnectAttempt) (rest : List ConnectAttempt) (r : RecvResult)
    (len closeRet ret bytesToSend : Int) (send : SendRequest → SendResult)
    (sends : List (SendRequest → SendResult))
    (hconn : a.err ≠ WSAEWOULDBLOCK ∧ a.err ≠ WSAEINPROGRESS ∧ a.err ≠ WSAEINVAL ∧
      a.err ≠ WSAEALREADY)
    (hsend : (send { offset := ret, len := bytesToSend % 2 ^ 32 }).socketRet = SOCKET_ERROR) :
    (∃ d', connectToService d address openMode (a :: rest) = some d') ∧
    (∃ v d', readData d r = (v, d') ∧
      (v = -2 ∨ v = -1 ∨ v = 0 ∨ v = Int.ofNat r.bytesRead)) ∧
    ((send { offset := ret, len := bytesToSend % 2 ^ 32 }).err = WSAEWOULDBLOCK ∨
      (send { offset := ret, len := bytesToSend % 2 ^ 32 }).err = WSAECONNRESET ∨
      (send { offset := ret, len := bytesToSend % 2 ^ 32 }).err = WSAECONNABORTED →
      ∃ v d', writeLoop len closeRet d ret bytesToSend (send :: sends)
        = some (WriteOutcome.returned v, d')) ∧
    ((send { offset := ret, len := bytesToSend % 2 ^ 32 }).err = WSAENOBUFS →
      writeLoop len closeRet d ret bytesToSend (send :: sends) =
        writeLoop len closeRet
          (emit (emit d (Effect.WSASend { offset := ret, len := bytesToSend % 2 ^ 32 }
            (send { offset := ret, len := bytesToSend % 2 ^ 32 })))
            (Effect.bytesWritten
              (send { offset := ret, len := bytesToSend % 2 ^ 32 }).bytesWritten))
          (ret + Int.ofNat (send { offset := ret, len := bytesToSend % 2 ^ 32 }).bytesWritten)
          (len - (ret +
            Int.ofNat (send { offset := ret, len := bytesToSend % 2 ^ 32 }).bytesWritten))
          sends) ∧
    ((send { offset := ret, len := bytesToSend % 2 ^ 32 }).err ≠ WSAEWOULDBLOCK →
      (send { offset := ret, len := bytesToSend % 2 ^ 32 }).err ≠ WSAENOBUFS →
      (send { offset := ret, len := bytesToSend % 2 ^ 32 }).err ≠ WSAECONNRESET →
      (send { offset := ret, len := bytesToSend % 2 ^ 32 }).err ≠ WSAECONNABORTED →
      ∃ d', writeLoop len closeRet d ret bytesToSend (send :: sends)
        = some (WriteOutcome.thrown
            (send { offset := ret, len := bytesToSend % 2 ^ 32 }).err, d')) := by
  obtain ⟨hc1, hc2, hc3, hc4⟩ := hconn
  generalize hres : send { offset := ret, len := bytesToSend % 2 ^ 32 } = res at hsend ⊢
  have hstep : writeLoop len closeRet d ret bytesToSend (send :: sends) =
      (if res.socketRet ≠ SOCKET_ERROR then
        if ret + Int.ofNat res.bytesWritten = len then
          some (WriteOutcome.returned (ret + Int.ofNat res.bytesWritten),
            emit (emit (emit d (Effect.WSASend { offset := ret, len := bytesToSend % 2 ^ 32 }
              res)) (Effect.bytesWritten res.bytesWritten)) Effect.bytesWrittenWakeAll)
        else writeLoop len closeRet
          (emit (emit d (Effect.WSASend { offset := ret, len := bytesToSend % 2 ^ 32 } res))
            (Effect.bytesWritten res.bytesWritten))
          (ret + Int.ofNat res.bytesWritten) bytesToSend sends
      else if res.err = WSAEWOULDBLOCK then
        some (WriteOutcome.returned (ret + Int.ofNat res.bytesWritten),
          emit (emit (emit d (Effect.WSASend { offset := ret, len := bytesToSend % 2 ^ 32 }
            res)) (Effect.bytesWritten res.bytesWritten)) Effect.bytesWrittenWakeAll)
      else if res.err = WSAENOBUFS then
        writeLoop len closeRet
          (emit (emit d (Effect.WSASend { offset := ret, len := bytesToSend % 2 ^ 32 } res))
            (Effect.bytesWritten res.bytesWritten))
          (ret + Int.ofNat res.bytesWritten) (len - (ret + Int.ofNat res.bytesWritten)) sends
      else if res.err = WSAECONNRESET ∨ res.err = WSAECONNABORTED then
        some (WriteOutcome.returned (-1),
          emit (close (setError (emit (emit d
            (Effect.WSASend { offset := ret, len := bytesToSend % 2 ^ 32 } res))
            (Effect.bytesWritten res.bytesWritten)) SocketError.NetworkError "") closeRet)
            Effect.bytesWrittenWakeAll)
      else some (WriteOutcome.thrown res.err,
        emit (emit d (Effect.WSASend { offset := ret, len := bytesToSend % 2 ^ 32 } res))
          (Effect.bytesWritten res.bytesWritten))) := by
    rw [writeLoop, hres]
  rw [hstep, if_neg (not_not.mpr hsend)]
  refine ⟨?_, ?_, ?_, ?_, ?_⟩
  · have h := connectToService_returns_of_loop d address openMode (a :: rest)
      (fun d1 => connectLoop_returns_of_not_retried d1 a rest hc1 hc2 hc3 hc4)
    cases hx : connectToService d address openMode (a :: rest) with
    | none => rw [hx] at h; simp at h
    | some d' => exact ⟨d', rfl⟩
  · exact ⟨(readData d r).1, (readData d r).2, rfl, readData_values d r⟩
  · intro hcode
    rcases hcode with h | h | h
    · rw [if_pos h]
      exact ⟨_, _, rfl⟩
    · have hwb : ¬ res.err = WSAEWOULDBLOCK := by rw [h]; decide
      have hnb : ¬ res.err = WSAENOBUFS := by rw [h]; decide
      rw [if_neg hwb, if_neg hnb, if_pos (Or.inl h)]
      exact ⟨_, _, rfl⟩
    · have hwb : ¬ res.err = WSAEWOULDBLOCK := by rw [h]; decide
      have hnb : ¬ res.err = WSAENOBUFS := by rw [h]; decide
      rw [if_neg hwb, if_neg hnb, if_pos (Or.inr h)]
      exact ⟨_, _, rfl⟩
  · intro hcode
    have hwb : ¬ res.err = WSAEWOULDBLOCK := by rw [hcode]; decide
    rw [if_neg hwb, if_pos hcode]
  · intro h1 h2 h3 h4
    rw [if_neg h1, if_neg h2, if_neg (not_or.mpr ⟨h3, h4⟩)]
    exact ⟨_, rfl⟩

/-- C6 (amended), at a concrete input: a refused native connect, and a send failing with
`WSAENOTCONN` on the first request of a 10-byte write. -/
theorem native_error_outcomes_witness :
    (WSAECONNREFUSED ≠ WSAEWOULDBLOCK ∧ WSAECONNREFUSED ≠ WSAEINPROGRESS ∧
      WSAECONNREFUSED ≠ WSAEINVAL ∧ WSAECONNREFUSED ≠ WSAEALREADY) ∧
    (∃ d', connectToService freshSocket 1 3
      [{ connectResult := SOCKET_ERROR, err := WSAECONNREFUSED, polls := [] }] = some d') ∧
    (∃ d', writeLoop 10 0 connectedSocket 0 10
      [fun _ => { socketRet := SOCKET_ERROR, bytesWritten := 0, err := WSAENOTCONN }]
        = some (WriteOutcome.thrown WSAENOTCONN, d')) :=
  have h := native_error_outcomes connectedSocket 1 3
    { connectResult := SOCKET_ERROR, err := WSAECONNREFUSED, polls := [] } []
    { ret := SOCKET_ERROR, bytesRead := 0, lastError := WSAEWOULDBLOCK } 10 0 0 10
    (fun _ => { socketRet := SOCKET_ERROR, bytesWritten := 0, err := WSAENOTCONN }) []
    (by decide) rfl
  have h' := native_error_outcomes freshSocket 1 3
    { connectResult := SOCKET_ERROR, err := WSAECONNREFUSED, polls := [] } []
    { ret := SOCKET_ERROR, bytesRead := 0, lastError := WSAEWOULDBLOCK } 10 0 0 10
    (fun _ => { socketRet := SOCKET_ERROR, bytesWritten := 0, err := WSAENOTCONN }) []
    (by decide) rfl
  ⟨by decide, h'.1, h.2.2.2.2 (by decide) (by decide) (by decide) (by decide)⟩

/-! ## Unlisted connect errors -/

/-- C11 (refuted as stated): address 1 on a fresh socket, the native connect failing with
`WSAENETDOWN`: `connectToService` returns with `error()` still `NoSocketError` (not
`UnknownSocketError`), no error signal emitted, and `state() == ConnectedState`. -/
theorem connectToService_netdown_records_nothing :
    ∃ d', connectToService freshSocket 1 3
        [{ connectResult := SOCKET_ERROR, err := WSAENETDOWN, polls := [] }] = some d' ∧
      d'.error = SocketError.NoSocketError ∧
      d'.error ≠ SocketError.UnknownSocketError ∧
      d'.state ≠ SocketState.UnconnectedState ∧
      emitted freshSocket d' =
        [Effect.stateChanged SocketState.ConnectingState, Effect.WSAConnect,
         Effect.stateChanged SocketState.ConnectedState, Effect.connected,
         Effect.setOpenMode 3] := by
  refine ⟨_, rfl, ?_, ?_, ?_, ?_⟩ <;> decide

/-- C11 (amended): for a non-zero address, when the native connect fails with an error code
that is none of in-progress, already, would-block, already-connected, refused, timed-out,
host- or network-unreachable, address-in-use, access, and is not invalid-argument (which is
retried), `connectToService` returns after that single native connect call without recording
an error: `error()` is what it was before the call and no error signal is emitted. -/
theorem connectToService_unlisted_error (d : BluetoothSocket) (address openMode : Nat)
    (a : ConnectAttempt) (rest : List ConnectAttempt)
    (haddr : address ≠ 0) (hfail : a.connectResult = SOCKET_ERROR)
    (hcode : a.err ≠ WSAEINPROGRESS ∧ a.err ≠ WSAEALREADY ∧ a.err ≠ WSAEWOULDBLOCK ∧
      a.err ≠ WSAEISCONN ∧ a.err ≠ WSAECONNREFUSED ∧ a.err ≠ WSAETIMEDOUT ∧
      a.err ≠ WSAEHOSTUNREACH ∧ a.err ≠ WSAENETUNREACH ∧ a.err ≠ WSAEADDRINUSE ∧
      a.err ≠ WSAEACCES)
    (hinval : a.err ≠ WSAEINVAL) :
    ∃ d', connectToService d address openMode (a :: rest) = some d' ∧
      d'.error = d.error ∧
      (∀ e, Effect.errorOccurred e ∉ emitted d d') ∧
      connectCalls (emitted d d') = 1 := by
  obtain ⟨h1, h2, h3, h4, h5, h6, h7, h8, h9, h10⟩ := hcode
  have hloop : ∀ d1, connectLoop d1 (a :: rest) = some (emit d1 Effect.WSAConnect) := by
    intro d1
    simp only [connectLoop, hfail, if_true, if_neg h1, if_neg h2, if_neg h3, if_neg h4,
      if_neg h5, if_neg h6, if_neg h7, if_neg h8, if_neg h9, if_neg h10,
      if_neg (not_or.mpr ⟨hinval, h2⟩)]
    split_ifs <;> rfl
  simp [connectToService, haddr, hloop, emitted, connectCalls]

/-- C11 (amended), at a concrete input: address 1, the native connect failing with
`WSAENETDOWN`. -/
theorem connectToService_unlisted_error_witness :
    (1 : Nat) ≠ 0 ∧
    ∃ d', connectToService freshSocket 1 3
        [{ connectResult := SOCKET_ERROR, err := WSAENETDOWN, polls := [] }] = some d' ∧
      d'.error = freshSocket.error ∧
      (∀ e, Effect.errorOccurred e ∉ emitted freshSocket d') ∧
      connectCalls (emitted freshSocket d') = 1 :=
  ⟨by decide, connectToService_unlisted_error freshSocket 1 3
    { connectResult := SOCKET_ERROR, err := WSAENETDOWN, polls := [] } []
    (by decide) rfl (by decide) (by decide)⟩

/-! ## abort, close and the destructor -/

theorem closeEffects_filter_of_not_connected (d : BluetoothSocket) (closeRet : Int)
    (h : d.state ≠ SocketState.ConnectedState) :
    (closeEffects d closeRet).filter (fun e => decide (e ≠ Effect.disconnected))
      = closeEffects d closeRet := by
  unfold closeEffects
  by_cases hs : d.socket = INVALID_SOCKET <;> by_cases hr : SOCKET_ERROR = closeRet <;>
    simp [hs, hr, h]

theorem destroy_trace (d : BluetoothSocket) (closeRet : Int) :
    (destroy d closeRet).trace = d.trace ++
      ([Effect.WSASetEvent EventHandle.joinEvent,
        Effect.WSASetEvent EventHandle.readCompleteEvent]
        ++ closeEffects d closeRet
        ++ [Effect.join, Effect.WSACloseEvent EventHandle.readEvent,
            Effect.WSACloseEvent EventHandle.joinEvent,
            Effect.WSACloseEvent EventHandle.readCompleteEvent, Effect.WSACleanup]) := by
  have hce : closeEffects (emit (emit d (Effect.WSASetEvent EventHandle.joinEvent))
      (Effect.WSASetEvent EventHandle.readCompleteEvent)) closeRet = closeEffects d closeRet :=
    rfl
  simp only [destroy, emit_trace, closeSocket_trace, hce, List.append_assoc,
    List.cons_append, List.nil_append]

/-- C12 (refuted as stated): on a connected socket `abort()` emits `disconnected`, as
`close()` does; it differs from an abort that skips the notification. -/
theorem abort_emits_disconnected :
    Effect.disconnected ∈ emitted connectedSocket (abort connectedSocket 0) ∧
      abort connectedSocket 0 ≠ abortSpec connectedSocket 0 := by
  decide

/-- C12 (amended): from every socket state `abort()` has the same effect as `close()` on
`state()`, `error()`, the native handle and on the signals, the `disconnected` notification
included: on a connected socket `abort()` emits `disconnected`.  It agrees with the
notification-skipping abort of the spec on state, error and handle, and on everything when
the socket is not connected. -/
theorem abort_eq_close (d : BluetoothSocket) (closeRet : Int) :
    abort d closeRet = close d closeRet ∧
      (abort d closeRet).state = (abortSpec d closeRet).state ∧
      (abort d closeRet).error = (abortSpec d closeRet).error ∧
      (abort d closeRet).socket = (abortSpec d closeRet).socket ∧
      (d.state = SocketState.ConnectedState →
        Effect.disconnected ∈ emitted d (abort d closeRet)) ∧
      (d.state ≠ SocketState.ConnectedState → abort d closeRet = abortSpec d closeRet) := by
  have he : emitted d (close d closeRet) = closeEffects d closeRet :=
    emitted_of_trace _ _ _ (closeSocket_trace d closeRet)
  refine ⟨rfl, rfl, rfl, rfl, ?_, ?_⟩
  · intro hc
    show Effect.disconnected ∈ emitted d (close d closeRet)
    rw [he]
    simp [closeEffects, hc]
  · intro hc
    have ht : (close d closeRet).trace = d.trace ++ closeEffects d closeRet :=
      closeSocket_trace d closeRet
    show close d closeRet = abortSpec d closeRet
    unfold abortSpec
    rw [he, closeEffects_filter_of_not_connected d closeRet hc, ← ht]

/-- C12 (amended), at a concrete input: a connected socket and an unconnected one. -/
theorem abort_eq_close_witness :
    connectedSocket.state = SocketState.ConnectedState ∧
      Effect.disconnected ∈ emitted connectedSocket (abort connectedSocket 0) ∧
      freshSocket.state ≠ SocketState.ConnectedState ∧
      abort freshSocket 0 = abortSpec freshSocket 0 :=
  ⟨rfl, (abort_eq_close connectedSocket 0).2.2.2.2.1 rfl, by decide,
    (abort_eq_close freshSocket 0).2.2.2.2.2 (by decide)⟩

/-- C13 (refuted as stated): `close()` on a connected socket emits the two state changes, the
native close and `disconnected`; it sets no event and does not join the worker. -/
theorem close_does_not_join :
    emitted connectedSocket (close connectedSocket 0) =
        [Effect.stateChanged SocketState.ClosingState, Effect.closesocket,
         Effect.stateChanged SocketState.UnconnectedState, Effect.disconnected] ∧
      Effect.WSASetEvent EventHandle.joinEvent ∉ emitted connectedSocket (close connectedSocket 0) ∧
      Effect.join ∉ emitted connectedSocket (close connectedSocket 0) := by
  decide

/-- C13 (amended): `close()` sets no event and does not join the worker, whatever the socket
and the result of the native close; the shutdown signal is set and the worker is joined when
the socket is destroyed: the destructor begins by setting the join event and joins the worker
after its own `closeSocket()`, before releasing the event handles. -/
theorem close_leaves_worker_to_destructor (d : BluetoothSocket) (closeRet : Int)
    (h : EventHandle) :
    Effect.WSASetEvent h ∉ emitted d (close d closeRet) ∧
      Effect.join ∉ emitted d (close d closeRet) ∧
      (emitted d (destroy d closeRet)).head? = some (Effect.WSASetEvent EventHandle.joinEvent) ∧
      Effect.join ∈ emitted d (destroy d closeRet) := by
  have he : emitted d (close d closeRet) = closeEffects d closeRet :=
    emitted_of_trace _ _ _ (closeSocket_trace d closeRet)
  have hd := emitted_of_trace _ _ _ (destroy_trace d closeRet)
  rw [he, hd]
  refine ⟨?_, ?_, rfl, by simp⟩
  · unfold closeEffects
    by_cases hs : d.socket = INVALID_SOCKET <;> by_cases hr : SOCKET_ERROR = closeRet <;>
      by_cases hc : d.state = SocketState.ConnectedState <;> simp [hs, hr, hc]
  · unfold closeEffects
    by_cases hs : d.socket = INVALID_SOCKET <;> by_cases hr : SOCKET_ERROR = closeRet <;>
      by_cases hc : d.state = SocketState.ConnectedState <;> simp [hs, hr, hc]

/-- C14: the destructor performs, in this order: set the join (shutdown) event, set the
read-complete event, `closeSocket()` (which closes the native handle when there is one),
join the worker, release the read, join and read-complete event handles (then `WSACleanup`).
For each of the three handles the join comes before its release. -/
theorem destructor_order (d : BluetoothSocket) (closeRet : Int) (h : EventHandle) :
    emitted d (destroy d closeRet) =
      [Effect.WSASetEvent EventHandle.joinEvent,
        Effect.WSASetEvent EventHandle.readCompleteEvent]
        ++ closeEffects d closeRet
        ++ [Effect.join, Effect.WSACloseEvent EventHandle.readEvent,
            Effect.WSACloseEvent EventHandle.joinEvent,
            Effect.WSACloseEvent EventHandle.readCompleteEvent, Effect.WSACleanup] ∧
    (emitted d (destroy d closeRet)).filter isTeardownStep =
      [Effect.WSASetEvent EventHandle.joinEvent,
        Effect.WSASetEvent EventHandle.readCompleteEvent]
        ++ (if d.socket ≠ INVALID_SOCKET then [Effect.closesocket] else [])
        ++ [Effect.join, Effect.WSACloseEvent EventHandle.readEvent,
            Effect.WSACloseEvent EventHandle.joinEvent,
            Effect.WSACloseEvent EventHandle.readCompleteEvent] ∧
    (emitted d (destroy d closeRet)).indexOf Effect.join <
      (emitted d (destroy d closeRet)).indexOf (Effect.WSACloseEvent h) ∧
    (emitted d (destroy d closeRet)).indexOf (Effect.WSACloseEvent h) <
      (emitted d (destroy d closeRet)).length := by
  have hd := emitted_of_trace _ _ _ (destroy_trace d closeRet)
  rw [hd]
  refine ⟨rfl, ?_, ?_, ?_⟩
  · unfold closeEffects
    by_cases hs : d.socket = INVALID_SOCKET <;> by_cases hr : SOCKET_ERROR = closeRet <;>
      by_cases hc : d.state = SocketState.ConnectedState <;> simp [hs, hr, hc, isTeardownStep]
  · unfold closeEffects
    by_cases hs : d.socket = INVALID_SOCKET <;> by_cases hr : SOCKET_ERROR = closeRet <;>
      by_cases hc : d.state = SocketState.ConnectedState <;>
      cases h <;> simp [hs, hr, hc]
  · unfold closeEffects
    by_cases hs : d.socket = INVALID_SOCKET <;> by_cases hr : SOCKET_ERROR = closeRet <;>
      by_cases hc : d.state = SocketState.ConnectedState <;>
      cases h <;> simp [hs, hr, hc]

/-! ## The requests of the write loop -/

/-- C15 (what the code does): when the first send of a write of `len` bytes succeeds with
`k` bytes, `k` different from `len`, the loop goes round by `continue` and the second
`WSASend` is issued at offset `k` with the length of the first request again (`len`), not
with `len - k`.  The run is cut here by a would-block answer to the second send, which
makes the call return `k`. -/
theorem writeData_second_request_not_suffix (d : BluetoothSocket) (len closeRet : Int)
    (k : Nat) (hk : Int.ofNat k ≠ len) :
    ∃ d', writeData d len closeRet (acceptThenFail k WSAEWOULDBLOCK)
        = some (WriteOutcome.returned (Int.ofNat k), d') ∧
      emitted d d' =
        [Effect.WSASend { offset := 0, len := len % 2 ^ 32 }
           { socketRet := 0, bytesWritten := k, err := 0 },
         Effect.bytesWritten k,
         Effect.WSASend { offset := Int.ofNat k, len := len % 2 ^ 32 }
           { socketRet := SOCKET_ERROR, bytesWritten := 0, err := WSAEWOULDBLOCK },
         Effect.bytesWritten 0,
         Effect.bytesWrittenWakeAll] := by
  have hk' : ¬ ((k : Int) = len) := hk
  simp [writeData, writeLoop, acceptThenFail, emitted, hk']

/-- C15, at a concrete input: 10 bytes to write, 3 accepted by the first send; the second
request is 10 bytes at offset 3, which ends 3 bytes past the buffer, where the unsent suffix
has 7 bytes. -/
theorem writeData_second_request_not_suffix_witness :
    Int.ofNat 3 ≠ (10 : Int) ∧
    (∃ d', writeData connectedSocket 10 0 (acceptThenFail 3 WSAEWOULDBLOCK)
        = some (WriteOutcome.returned (Int.ofNat 3), d') ∧
      emitted connectedSocket d' =
        [Effect.WSASend { offset := 0, len := 10 % 2 ^ 32 }
           { socketRet := 0, bytesWritten := 3, err := 0 },
         Effect.bytesWritten 3,
         Effect.WSASend { offset := Int.ofNat 3, len := 10 % 2 ^ 32 }
           { socketRet := SOCKET_ERROR, bytesWritten := 0, err := WSAEWOULDBLOCK },
         Effect.bytesWritten 0,
         Effect.bytesWrittenWakeAll]) ∧
    (10 : Int) % 2 ^ 32 ≠ 10 - 3 ∧ (10 : Int) < 3 + 10 % 2 ^ 32 :=
  ⟨by decide, writeData_second_request_not_suffix connectedSocket 10 0 3 (by decide),
    by decide, by decide⟩

/-! ## The SO_ERROR polls of the would-block case -/

theorem connectLoop_wouldBlock (d : BluetoothSocket) (a : ConnectAttempt)
    (rest : List ConnectAttempt) (hfail : a.connectResult = SOCKET_ERROR)
    (hwb : a.err = WSAEWOULDBLOCK) :
    connectLoop d (a :: rest) =
      match soErrorLoop (emit d Effect.WSAConnect) 0 false 0 a.polls with
      | none => none
      | some (d2, errorDetected) => if errorDetected then some d2 else connectLoop d2 rest := by
  have h1 : ¬ a.err = WSANOTINITIALISED := by rw [hwb]; decide
  have h2 : ¬ a.err = WSAEISCONN := by rw [hwb]; decide
  rw [connectLoop]
  simp only [hfail, if_true, if_neg h1, if_neg h2, if_pos hwb]

theorem soErrorLoop_fail (d : BluetoothSocket) (value : Int) (tryAgain : Bool) (tries : Nat)
    (p : SockOptResult) (ps : List SockOptResult) (hret : p.ret ≠ 0)
    (hstop : tryAgain = false ∨ 1 ≤ tries) :
    soErrorLoop d value tryAgain tries (p :: ps) = some (emit d Effect.getsockopt, false) := by
  rw [soErrorLoop]
  rcases hstop with h | h
  · simp [hret, h]
  · have : ¬ (tries + 1 < 2) := by omega
    simp [hret, this]

theorem soErrorLoop_terminal (d : BluetoothSocket) (value : Int) (tryAgain : Bool)
    (tries : Nat) (p : SockOptResult) (ps : List SockOptResult) (hret : p.ret = 0)
    (hval : p.value = WSAECONNREFUSED ∨ p.value = WSAETIMEDOUT ∨ p.value = WSAEHOSTUNREACH ∨
      p.value = WSAEADDRNOTAVAIL) :
    soErrorLoop d value tryAgain tries (p :: ps) =
      some (setState (setError (emit (emit d Effect.getsockopt) Effect.setsockopt)
        SocketError.NetworkError "") SocketState.UnconnectedState, true) := by
  rw [soErrorLoop]
  rcases hval with h | h | h | h <;> simp [hret, h] <;> rfl

theorem soErrorLoop_noerror_first (d : BluetoothSocket) (value : Int) (p : SockOptResult)
    (ps : List SockOptResult) (hret : p.ret = 0) (hval : p.value = NOERROR) :
    soErrorLoop d value false 0 (p :: ps) =
      soErrorLoop (emit d Effect.getsockopt) 0 true 1 ps := by
  rw [soErrorLoop]
  simp [hret, hval]

theorem soErrorLoop_last (d : BluetoothSocket) (value : Int) (tryAgain : Bool) (tries : Nat)
    (p : SockOptResult) (ps : List SockOptResult) (hret : p.ret = 0)
    (hval : ¬ (p.value = WSAECONNREFUSED ∨ p.value = WSAETIMEDOUT ∨
      p.value = WSAEHOSTUNREACH ∨ p.value = WSAEADDRNOTAVAIL))
    (hstop : 1 ≤ tries ∨ (tryAgain = false ∧ p.value ≠ NOERROR)) :
    soErrorLoop d value tryAgain tries (p :: ps) =
      some (if p.value ≠ NOERROR then emit (emit d Effect.getsockopt) Effect.setsockopt
        else emit d Effect.getsockopt, false) := by
  rw [soErrorLoop]
  simp only [not_or] at hval
  obtain ⟨h1, h2, h3, h4⟩ := hval
  rcases hstop with h | ⟨h, h'⟩
  · have : ¬ (tries + 1 < 2) := by omega
    simp [hret, h1, h2, h3, h4, this]
  · simp [hret, h1, h2, h3, h4, h, h']

/-- C16: on a would-block result the connect loop runs the poll loop on the socket after the
native connect, started with `value = 0`, `tryAgain = false`, `tries = 0` (first part).
Started so, with two poll results at hand, the poll loop ends,
having polled `SO_ERROR` once or twice; it polls twice exactly when the first poll succeeded
and stored `NOERROR`; a first poll storing refused, timed-out, host-unreachable or
address-not-available sets `NetworkError` and `UnconnectedState` with a single poll, and so
does such a second poll after a first `NOERROR`, with two polls. -/
theorem soErrorLoop_polls (d : BluetoothSocket) (p1 p2 : SockOptResult)
    (rest : List SockOptResult) :
    (∀ (d0 : BluetoothSocket) (ps : List SockOptResult) (attempts : List ConnectAttempt),
      connectLoop d0
          (ConnectAttempt.mk SOCKET_ERROR WSAEWOULDBLOCK ps :: attempts) =
        match soErrorLoop (emit d0 Effect.WSAConnect) 0 false 0 ps with
        | none => none
        | some (d2, errorDetected) =>
          if errorDetected then some d2 else connectLoop d2 attempts) ∧
    ∃ d' flag, soErrorLoop d 0 false 0 (p1 :: p2 :: rest) = some (d', flag) ∧
      1 ≤ pollCalls (emitted d d') ∧ pollCalls (emitted d d') ≤ 2 ∧
      (pollCalls (emitted d d') = 2 ↔ (p1.ret = 0 ∧ p1.value = NOERROR)) ∧
      (terminalPoll p1 = true →
        pollCalls (emitted d d') = 1 ∧ flag = true ∧
          d'.error = SocketError.NetworkError ∧
          d'.state = SocketState.UnconnectedState) ∧
      (p1.ret = 0 ∧ p1.value = NOERROR → terminalPoll p2 = true →
        flag = true ∧ d'.error = SocketError.NetworkError ∧
          d'.state = SocketState.UnconnectedState) := by
  refine ⟨fun d0 ps attempts => connectLoop_wouldBlock d0 _ attempts rfl rfl, ?_⟩
  by_cases hret : p1.ret = 0
  · by_cases hterm : p1.value = WSAECONNREFUSED ∨ p1.value = WSAETIMEDOUT ∨
        p1.value = WSAEHOSTUNREACH ∨ p1.value = WSAEADDRNOTAVAIL
    · refine ⟨_, _, soErrorLoop_terminal d 0 false 0 p1 _ hret hterm, ?_⟩
      have hne : p1.value ≠ NOERROR := by
        rcases hterm with h | h | h | h <;> rw [h] <;> decide
      simp [emitted, pollCalls, hne]
    · by_cases hzero : p1.value = NOERROR
      · rw [soErrorLoop_noerror_first d 0 p1 _ hret hzero]
        by_cases hret2 : p2.ret = 0
        · by_cases hterm2 : p2.value = WSAECONNREFUSED ∨ p2.value = WSAETIMEDOUT ∨
              p2.value = WSAEHOSTUNREACH ∨ p2.value = WSAEADDRNOTAVAIL
          · refine ⟨_, _, soErrorLoop_terminal _ 0 true 1 p2 _ hret2 hterm2, ?_⟩
            simp [emitted, pollCalls, hret, hzero, terminalPoll]
          · refine ⟨_, _, soErrorLoop_last _ 0 true 1 p2 _ hret2 hterm2 (Or.inl le_rfl), ?_⟩
            have ht2 : terminalPoll p2 = false := by
              simp only [not_or] at hterm2
              simp [terminalPoll, hterm2.1, hterm2.2.1, hterm2.2.2.1, hterm2.2.2.2]
            have ht1 : terminalPoll p1 = false := by
              simp only [not_or] at hterm
              simp [terminalPoll, hterm.1, hterm.2.1, hterm.2.2.1, hterm.2.2.2]
            by_cases hz2 : p2.value = NOERROR <;>
              simp [emitted, pollCalls, hret, hzero, hz2, ht1, ht2]
        · refine ⟨_, _, soErrorLoop_fail _ 0 true 1 p2 _ hret2 (Or.inr le_rfl), ?_⟩
          simp [emitted, pollCalls, hret, hzero, terminalPoll, hret2]
      · refine ⟨_, _, soErrorLoop_last d 0 false 0 p1 _ hret hterm (Or.inr ⟨rfl, hzero⟩), ?_⟩
        have ht1 : terminalPoll p1 = false := by
          simp only [not_or] at hterm
          simp [terminalPoll, hterm.1, hterm.2.1, hterm.2.2.1, hterm.2.2.2]
        simp [emitted, pollCalls, hzero, ht1]
  · refine ⟨_, _, soErrorLoop_fail d 0 false 0 p1 _ hret (Or.inl rfl), ?_⟩
    simp [emitted, pollCalls, hret, terminalPoll]

/-- C16, at a concrete input: a first poll storing `NOERROR`, a second one storing
`WSAECONNREFUSED`. -/
theorem soErrorLoop_polls_witness :
    ∃ d' flag, soErrorLoop freshSocket 0 false 0
        [{ ret := 0, value := NOERROR }, { ret := 0, value := WSAECONNREFUSED }]
          = some (d', flag) ∧
      pollCalls (emitted freshSocket d') = 2 ∧ flag = true ∧
      d'.error = SocketError.NetworkError ∧ d'.state = SocketState.UnconnectedState :=
  have h := soErrorLoop_polls freshSocket { ret := 0, value := NOERROR }
    { ret := 0, value := WSAECONNREFUSED } []
  match h.2 with
  | ⟨d', flag, h1, _, _, h4, _, h6⟩ =>
    ⟨d', flag, h1, h4.mpr ⟨rfl, rfl⟩, (h6 ⟨rfl, rfl⟩ rfl).1, (h6 ⟨rfl, rfl⟩ rfl).2.1,
      (h6 ⟨rfl, rfl⟩ rfl).2.2⟩

/-! ## The ready-read worker -/

@[simp] theorem emit_errorString (d : BluetoothSocket) (e : Effect) :
    (emit d e).errorString = d.errorString := rfl

@[simp] theorem setState_errorString (d : BluetoothSocket) (s : SocketState) :
    (setState d s).errorString = d.errorString := rfl

@[simp] theorem setError_errorString (d : BluetoothSocket) (e : SocketError) (msg : String) :
    (setError d e msg).errorString = d.errorString := rfl

theorem emitted_count (d d' : BluetoothSocket) (e : Effect) (h : d.trace <+: d'.trace) :
    (emitted d d').count e + d.trace.count e = d'.trace.count e := by
  obtain ⟨t, ht⟩ := h
  rw [emitted_of_trace d d' t ht.symm, ← ht, List.count_append]
  omega

theorem emitted_append (d d' : BluetoothSocket) (es : List Effect) (h : d.trace <+: d'.trace) :
    (d'.trace ++ es).drop d.trace.length = emitted d d' ++ es := by
  obtain ⟨t, ht⟩ := h
  rw [emitted_of_trace d d' t ht.symm, ← ht, List.append_assoc, List.drop_left]

theorem soErrorLoop_flag (polls : List SockOptResult) :
    ∀ (d0 d : BluetoothSocket) (value : Int) (tryAgain : Bool) (tries : Nat),
      (soErrorLoop d0 value tryAgain tries polls).map Prod.snd =
        (soErrorLoop d value tryAgain tries polls).map Prod.snd := by
  induction polls with
  | nil => intro d0 d value tryAgain tries; rfl
  | cons p ps ih =>
    intro d0 d value tryAgain tries
    rw [soErrorLoop, soErrorLoop]
    dsimp only
    split_ifs <;> first | rfl | exact ih _ _ _ _ _

theorem soErrorLoop_frame (polls : List SockOptResult) :
    ∀ (d : BluetoothSocket) (value : Int) (tryAgain : Bool) (tries : Nat)
      (d' : BluetoothSocket) (flag : Bool),
      soErrorLoop d value tryAgain tries polls = some (d', flag) →
      d.trace <+: d'.trace ∧
        d'.trace.count Effect.WSAConnect = d.trace.count Effect.WSAConnect ∧
        d'.trace.count Effect.connected = d.trace.count Effect.connected ∧
        d'.errorString = d.errorString := by
  induction polls with
  | nil => intro d value tryAgain tries d' flag h; simp [soErrorLoop] at h
  | cons p ps ih =>
    intro d value tryAgain tries d' flag h
    rw [soErrorLoop] at h
    dsimp only at h
    split_ifs at h <;>
      first
      | (simp only [Option.some.injEq, Prod.mk.injEq] at h
         obtain ⟨hd, _⟩ := h
         subst hd
         simp)
      | (obtain ⟨h1, h2, h3, h4⟩ := ih _ _ _ _ _ _ h
         refine ⟨List.IsPrefix.trans ?_ h1, ?_, ?_, ?_⟩
         · simp
         · rw [h2]; simp
         · rw [h3]; simp
         · rw [h4]; simp)

theorem connectLoop_not_wouldBlock (d : BluetoothSocket) (a : ConnectAttempt)
    (rest : List ConnectAttempt) (hwb : ¬ (a.connectResult = SOCKET_ERROR ∧ a.err = WSAEWOULDBLOCK)) :
    (a.connectResult = SOCKET_ERROR ∧
      (a.err = WSAEINPROGRESS ∨ a.err = WSAEINVAL ∨ a.err = WSAEALREADY) ∧
      connectLoop d (a :: rest) = connectLoop (emit d Effect.WSAConnect) rest) ∨
    (¬ (a.connectResult = SOCKET_ERROR ∧
        (a.err = WSAEINPROGRESS ∨ a.err = WSAEINVAL ∨ a.err = WSAEALREADY)) ∧
      (connectLoop d (a :: rest) = some (emit d Effect.WSAConnect) ∨
       connectLoop d (a :: rest) =
         some (setState (emit d Effect.WSAConnect) SocketState.ConnectedState) ∨
       connectLoop d (a :: rest) =
         some (setError (emit d Effect.WSAConnect) SocketError.NetworkError "") ∨
       connectLoop d (a :: rest) =
         some (setState (setError (emit d Effect.WSAConnect) SocketError.NetworkError "")
           SocketState.UnconnectedState))) := by
  rw [connectLoop]
  by_cases hfail : a.connectResult = SOCKET_ERROR
  · have hwb' : ¬ a.err = WSAEWOULDBLOCK := fun h => hwb ⟨hfail, h⟩
    simp only [hfail, if_true, if_neg hwb', true_and]
    by_cases h1 : a.err = WSANOTINITIALISED
    · right; rw [h1]; exact ⟨by decide, Or.inl rfl⟩
    by_cases h2 : a.err = WSAEISCONN
    · right; rw [h2]; exact ⟨by decide, Or.inr (Or.inl rfl)⟩
    by_cases h3 : a.err = WSAEINPROGRESS
    · left; rw [h3]; exact ⟨Or.inl rfl, rfl⟩
    by_cases h4 : a.err = WSAEADDRINUSE
    · right; rw [h4]; exact ⟨by decide, Or.inr (Or.inr (Or.inl rfl))⟩
    by_cases h5 : a.err = WSAECONNREFUSED
    · right; rw [h5]; exact ⟨by decide, Or.inr (Or.inr (Or.inr rfl))⟩
    by_cases h6 : a.err = WSAETIMEDOUT
    · right; rw [h6]; exact ⟨by decide, Or.inr (Or.inr (Or.inl rfl))⟩
    by_cases h7 : a.err = WSAEACCES
    · right; rw [h7]; exact ⟨by decide, Or.inr (Or.inr (Or.inr rfl))⟩
    by_cases h8 : a.err = WSAEHOSTUNREACH
    · right; rw [h8]; exact ⟨by decide, Or.inr (Or.inr (Or.inr rfl))⟩
    by_cases h9 : a.err = WSAENETUNREACH
    · right; rw [h9]; exact ⟨by decide, Or.inr (Or.inr (Or.inr rfl))⟩
    by_cases h10 : a.err = WSAEINVAL ∨ a.err = WSAEALREADY
    · left
      simp only [if_neg h1, if_neg h2, if_neg h3, if_neg h4, if_neg h5, if_neg h6, if_neg h7,
        if_neg h8, if_neg h9, if_pos h10]
      exact ⟨Or.inr h10, trivial⟩
    · right
      simp only [if_neg h1, if_neg h2, if_neg h3, if_neg h4, if_neg h5, if_neg h6, if_neg h7,
        if_neg h8, if_neg h9, if_neg h10]
      refine ⟨?_, Or.inl trivial⟩
      rintro (h | h | h)
      · exact h3 h
      · exact h10 (Or.inl h)
      · exact h10 (Or.inr h)
  · right
    simp only [if_neg hfail]
    exact ⟨fun h => hfail h.1, Or.inl trivial⟩

theorem connectLoop_frame (attempts : List ConnectAttempt) :
    ∀ (d d' : BluetoothSocket), connectLoop d attempts = some d' →
      d.trace <+: d'.trace ∧
        d'.trace.count Effect.connected = d.trace.count Effect.connected ∧
        d'.errorString = d.errorString := by
  induction attempts with
  | nil => intro d d' h; simp [connectLoop] at h
  | cons a rest ih =>
    intro d d' h
    by_cases hwb : a.connectResult = SOCKET_ERROR ∧ a.err = WSAEWOULDBLOCK
    · rw [connectLoop_wouldBlock d a rest hwb.1 hwb.2] at h
      cases hso : soErrorLoop (emit d Effect.WSAConnect) 0 false 0 a.polls with
      | none => rw [hso] at h; simp at h
      | some x =>
        obtain ⟨d2, flag⟩ := x
        rw [hso] at h
        obtain ⟨g1, _, g3, g4⟩ := soErrorLoop_frame _ _ _ _ _ _ _ hso
        have g1' : d.trace <+: d2.trace :=
          List.IsPrefix.trans (by simp) g1
        have g3' : d2.trace.count Effect.connected = d.trace.count Effect.connected := by
          rw [g3]; simp
        cases flag with
        | true =>
          simp only [if_true, Option.some.injEq] at h
          subst h
          exact ⟨g1', g3', g4⟩
        | false =>
          simp only [Bool.false_eq_true, if_false] at h
          obtain ⟨h1, h2, h3⟩ := ih _ _ h
          exact ⟨List.IsPrefix.trans g1' h1, by rw [h2, g3'], by rw [h3, g4]; rfl⟩
    · rcases connectLoop_not_wouldBlock d a rest hwb with ⟨_, _, hc⟩ | ⟨_, hc | hc | hc | hc⟩
      · rw [hc] at h
        obtain ⟨h1, h2, h3⟩ := ih _ _ h
        refine ⟨List.IsPrefix.trans ?_ h1, ?_, ?_⟩
        · simp
        · rw [h2]; simp
        · rw [h3]; simp
      all_goals
        rw [hc] at h
        simp only [Option.some.injEq] at h
        subst h
        simp

theorem connectToService_nonzero (d : BluetoothSocket) (address openMode : Nat)
    (attempts : List ConnectAttempt) (haddr : address ≠ 0) :
    connectToService d address openMode attempts =
      match connectLoop { setState d SocketState.ConnectingState with btAddr := address }
        attempts with
      | none => none
      | some d3 =>
        some (emit { emit (setState d3 SocketState.ConnectedState) Effect.connected with
          openMode := openMode } (Effect.setOpenMode openMode)) := by
  unfold connectToService
  simp only [haddr, if_false]

theorem connectLoop_transient_step (d : BluetoothSocket) (a : ConnectAttempt)
    (h : transientAttempt a = true) :
    ∃ d1, d.trace <+: d1.trace ∧
      d1.trace.count Effect.WSAConnect = d.trace.count Effect.WSAConnect + 1 ∧
      ∀ rest, connectLoop d (a :: rest) = connectLoop d1 rest := by
  simp only [transientAttempt, Bool.and_eq_true, Bool.or_eq_true, decide_eq_true_eq] at h
  obtain ⟨hfail, hcode⟩ := h
  by_cases hwb : a.err = WSAEWOULDBLOCK
  · have hpoll : pollsUndecided a.polls = true := by
      rcases hcode with ((h | h) | h) | h
      · rw [hwb] at h; exact absurd h (by decide)
      · rw [hwb] at h; exact absurd h (by decide)
      · rw [hwb] at h; exact absurd h (by decide)
      · exact h.2
    have hfresh : (soErrorLoop freshSocket 0 false 0 a.polls).map Prod.snd = some false := by
      unfold pollsUndecided at hpoll
      cases hs : soErrorLoop freshSocket 0 false 0 a.polls with
      | none => rw [hs] at hpoll; simp at hpoll
      | some x =>
        obtain ⟨x1, x2⟩ := x
        cases x2 with
        | false => rfl
        | true => rw [hs] at hpoll; simp at hpoll
    rw [soErrorLoop_flag a.polls freshSocket (emit d Effect.WSAConnect) 0 false 0] at hfresh
    cases hs : soErrorLoop (emit d Effect.WSAConnect) 0 false 0 a.polls with
    | none => rw [hs] at hfresh; simp at hfresh
    | some x =>
      obtain ⟨d2, flag⟩ := x
      rw [hs] at hfresh
      simp only [Option.map_some', Option.some.injEq] at hfresh
      subst hfresh
      obtain ⟨g1, g2, _, _⟩ := soErrorLoop_frame _ _ _ _ _ _ _ hs
      refine ⟨d2, List.IsPrefix.trans (by simp) g1, by rw [g2]; simp, ?_⟩
      intro rest
      rw [connectLoop_wouldBlock d a rest hfail hwb, hs]
      simp
  · refine ⟨emit d Effect.WSAConnect, by simp, by simp, ?_⟩
    intro rest
    have hcode' : a.err = WSAEINPROGRESS ∨ a.err = WSAEINVAL ∨ a.err = WSAEALREADY := by
      rcases hcode with ((h | h) | h) | h
      · exact Or.inl h
      · exact Or.inr (Or.inr h)
      · exact Or.inr (Or.inl h)
      · exact absurd h.1 hwb
    rcases connectLoop_not_wouldBlock d a rest (fun h => hwb h.2) with ⟨_, _, hc⟩ | ⟨hn, _⟩
    · exact hc
    · exact absurd ⟨hfail, hcode'⟩ hn

theorem connectLoop_transients (ts : List ConnectAttempt) :
    (∀ a ∈ ts, transientAttempt a = true) → ∀ d : BluetoothSocket,
      ∃ d1, d.trace <+: d1.trace ∧
        d1.trace.count Effect.WSAConnect = d.trace.count Effect.WSAConnect + ts.length ∧
        ∀ rest, connectLoop d (ts ++ rest) = connectLoop d1 rest := by
  induction ts with
  | nil => intro _ d; exact ⟨d, List.prefix_refl _, rfl, fun _ => rfl⟩
  | cons a ts ih =>
    intro hts d
    obtain ⟨d1, p1, c1, s1⟩ := connectLoop_transient_step d a (hts a (List.mem_cons_self _ _))
    obtain ⟨d2, p2, c2, s2⟩ := ih (fun b hb => hts b (List.mem_cons_of_mem _ hb)) d1
    refine ⟨d2, List.IsPrefix.trans p1 p2, ?_, ?_⟩
    · rw [c2, c1, List.length_cons]; omega
    · intro rest
      rw [List.cons_append, s1, s2]

/-! ## The retry loop and its exit -/

/-- C18: for a non-zero address, if the first `k` native connect results are transient
(failure with in-progress, already-in-progress or invalid-argument, or with would-block when
the `SO_ERROR` polls show no terminal condition) and the next native connect succeeds,
`connectToService` returns after exactly `k + 1` native connect calls, for every `k`; and on
`k` transient results alone it has not returned, for every `k`: the loop has no cap and
never returns on an endless sequence of transient results. -/
theorem connectToService_retries_uncapped (d : BluetoothSocket) (address openMode : Nat)
    (ts : List ConnectAttempt) (succ : ConnectAttempt) (rest : List ConnectAttempt)
    (haddr : address ≠ 0) (hts : ∀ a ∈ ts, transientAttempt a = true)
    (hsucc : succ.connectResult ≠ SOCKET_ERROR) :
    (∃ d', connectToService d address openMode (ts ++ succ :: rest) = some d' ∧
      connectCalls (emitted d d') = ts.length + 1) ∧
    connectToService d address openMode ts = none := by
  obtain ⟨d1, p1, c1, s1⟩ := connectLoop_transients ts hts
    { setState d SocketState.ConnectingState with btAddr := address }
  have hpre : d.trace <+: d1.trace := List.IsPrefix.trans (by simp) p1
  constructor
  · have hlast : connectLoop d1 (succ :: rest) = some (emit d1 Effect.WSAConnect) := by
      rw [connectLoop]
      simp only [if_neg hsucc]
    rw [connectToService_nonzero d address openMode _ haddr, s1, hlast]
    refine ⟨_, rfl, ?_⟩
    have hem : emitted d (emit { emit (setState (emit d1 Effect.WSAConnect)
        SocketState.ConnectedState) Effect.connected with openMode := openMode }
        (Effect.setOpenMode openMode)) =
        emitted d d1 ++ [Effect.WSAConnect, Effect.stateChanged SocketState.ConnectedState,
          Effect.connected, Effect.setOpenMode openMode] := by
      have := emitted_append d d1 [Effect.WSAConnect,
        Effect.stateChanged SocketState.ConnectedState, Effect.connected,
        Effect.setOpenMode openMode] hpre
      simpa [emitted] using this
    have hc := emitted_count d d1 Effect.WSAConnect hpre
    have h2 : List.count Effect.WSAConnect
        ({ setState d SocketState.ConnectingState with btAddr := address }).trace
        = List.count Effect.WSAConnect d.trace := by
      show List.count Effect.WSAConnect
        (d.trace ++ [Effect.stateChanged SocketState.ConnectingState]) = _
      simp
    rw [c1, h2] at hc
    have h3 : List.count Effect.WSAConnect
        [Effect.WSAConnect, Effect.stateChanged SocketState.ConnectedState,
          Effect.connected, Effect.setOpenMode openMode] = 1 := by
      simp
    rw [connectCalls, hem, List.count_append, h3]
    omega
  · have hnone := s1 []
    rw [List.append_nil] at hnone
    rw [connectToService_nonzero d address openMode _ haddr, hnone]
    rfl

/-- C18, at a concrete input: two transient results (a would-block whose two polls store
`NOERROR`, then in-progress) followed by a successful native connect: three native connect
calls. -/
theorem connectToService_retries_uncapped_witness :
    (1 : Nat) ≠ 0 ∧
    (∃ d', connectToService freshSocket 1 3
        ([{ connectResult := SOCKET_ERROR, err := WSAEWOULDBLOCK,
            polls := [{ ret := 0, value := NOERROR }, { ret := 0, value := NOERROR }] },
          { connectResult := SOCKET_ERROR, err := WSAEINPROGRESS, polls := [] }] ++
          { connectResult := 0, err := 0, polls := [] } :: []) = some d' ∧
      connectCalls (emitted freshSocket d') = 2 + 1) ∧
    connectToService freshSocket 1 3
        [{ connectResult := SOCKET_ERROR, err := WSAEWOULDBLOCK,
            polls := [{ ret := 0, value := NOERROR }, { ret := 0, value := NOERROR }] },
          { connectResult := SOCKET_ERROR, err := WSAEINPROGRESS, polls := [] }] = none :=
  ⟨by decide, connectToService_retries_uncapped freshSocket 1 3
    [{ connectResult := SOCKET_ERROR, err := WSAEWOULDBLOCK,
        polls := [{ ret := 0, value := NOERROR }, { ret := 0, value := NOERROR }] },
      { connectResult := SOCKET_ERROR, err := WSAEINPROGRESS, polls := [] }]
    { connectResult := 0, err := 0, polls := [] } [] (by decide) (by decide) (by decide)⟩

/-- C19: for a non-zero address, whenever `connectToService` returns (on any sequence of
native results, successful or not), `state()` is `ConnectedState`, the effects of the call
end with `stateChanged(Connected)`, `connected`, open-mode set, and `connected` is emitted
exactly once. -/
theorem connectToService_always_ends_connected (d : BluetoothSocket) (address openMode : Nat)
    (attempts : List ConnectAttempt) (d' : BluetoothSocket) (haddr : address ≠ 0)
    (h : connectToService d address openMode attempts = some d') :
    d'.state = SocketState.ConnectedState ∧
      (emitted d d').count Effect.connected = 1 ∧
      ∃ pre, emitted d d' =
          pre ++ [Effect.stateChanged SocketState.ConnectedState, Effect.connected,
            Effect.setOpenMode openMode] ∧
        Effect.connected ∉ pre := by
  rw [connectToService_nonzero d address openMode attempts haddr] at h
  cases hl : connectLoop { setState d SocketState.ConnectingState with btAddr := address }
      attempts with
  | none => rw [hl] at h; simp at h
  | some d3 =>
    rw [hl] at h
    simp only [Option.some.injEq] at h
    subst h
    obtain ⟨p1, c1, _⟩ := connectLoop_frame _ _ _ hl
    have hpre : d.trace <+: d3.trace := List.IsPrefix.trans (by simp) p1
    have hc := emitted_count d d3 Effect.connected hpre
    have hzero : (emitted d d3).count Effect.connected = 0 := by
      rw [c1] at hc
      simp at hc
      omega
    have hem : emitted d (emit { emit (setState d3 SocketState.ConnectedState)
        Effect.connected with openMode := openMode } (Effect.setOpenMode openMode)) =
        emitted d d3 ++ [Effect.stateChanged SocketState.ConnectedState, Effect.connected,
          Effect.setOpenMode openMode] := by
      have := emitted_append d d3 [Effect.stateChanged SocketState.ConnectedState,
        Effect.connected, Effect.setOpenMode openMode] hpre
      simpa [emitted] using this
    refine ⟨rfl, ?_, emitted d d3, hem, List.count_eq_zero.mp hzero⟩
    rw [hem, List.count_append, hzero]
    simp

/-- C19, at a concrete input: address 1, one refused native connect. -/
theorem connectToService_always_ends_connected_witness :
    (1 : Nat) ≠ 0 ∧
    ∃ d', connectToService freshSocket 1 3
        [{ connectResult := SOCKET_ERROR, err := WSAECONNREFUSED, polls := [] }] = some d' ∧
      d'.state = SocketState.ConnectedState ∧ d'.error = SocketError.NetworkError ∧
      (emitted freshSocket d').count Effect.connected = 1 :=
  ⟨by decide, _, rfl,
    (connectToService_always_ends_connected freshSocket 1 3
      [{ connectResult := SOCKET_ERROR, err := WSAECONNREFUSED, polls := [] }] _
      (by decide) rfl).1, rfl,
    (connectToService_always_ends_connected freshSocket 1 3
      [{ connectResult := SOCKET_ERROR, err := WSAECONNREFUSED, polls := [] }] _
      (by decide) rfl).2.1⟩

/-! ## The error string -/

theorem closeSocket_errorString (d : BluetoothSocket) (closeRet : Int) :
    (closeSocket d closeRet).errorString = d.errorString := by
  unfold closeSocket
  by_cases hs : d.socket = INVALID_SOCKET <;> by_cases hr : SOCKET_ERROR = closeRet <;>
    by_cases hc : d.state = SocketState.ConnectedState <;> simp [hs, hr, hc]

theorem readData_errorString (d : BluetoothSocket) (r : RecvResult) :
    (readData d r).2.errorString = d.errorString := by
  unfold readData
  dsimp only
  split_ifs <;> rfl

theorem writeLoop_errorString (len closeRet : Int) (sends : List (SendRequest → SendResult)) :
    ∀ (d : BluetoothSocket) (ret bytesToSend : Int) (out : WriteOutcome)
      (d' : BluetoothSocket),
      writeLoop len closeRet d ret bytesToSend sends = some (out, d') →
      d'.errorString = d.errorString := by
  induction sends with
  | nil => intro d ret bts out d' h; simp [writeLoop] at h
  | cons send sends ih =>
    intro d ret bts out d' h
    rw [writeLoop] at h
    dsimp only at h
    split_ifs at h <;>
      first
      | (simp only [Option.some.injEq, Prod.mk.injEq] at h
         obtain ⟨_, hd⟩ := h
         subst hd
         simp [close, closeSocket_errorString])
      | (rw [ih _ _ _ _ _ h]
         rfl)

theorem connectToService_errorString (d : BluetoothSocket) (address openMode : Nat)
    (attempts : List ConnectAttempt) (d' : BluetoothSocket)
    (h : connectToService d address openMode attempts = some d') :
    d'.errorString = d.errorString := by
  by_cases haddr : address = 0
  · simp only [connectToService, haddr, if_true, Option.some.injEq] at h
    subst h
    rfl
  · rw [connectToService_nonzero d address openMode attempts haddr] at h
    cases hl : connectLoop { setState d SocketState.ConnectingState with btAddr := address }
        attempts with
    | none => rw [hl] at h; simp at h
    | some d3 =>
      rw [hl] at h
      simp only [Option.some.injEq] at h
      subst h
      obtain ⟨_, _, he⟩ := connectLoop_frame _ _ _ hl
      show d3.errorString = d.errorString
      rw [he]
      rfl

theorem setPreferredSecurityFlags_errorString (d : BluetoothSocket) (flags : SecurityFlags)
    (encryptRet authenticateRet : Int) :
    (setPreferredSecurityFlags d flags encryptRet authenticateRet).errorString
      = d.errorString := by
  unfold setPreferredSecurityFlags
  dsimp only
  split_ifs <;> rfl

theorem runCall_errorString (d : BluetoothSocket) (c : Call) (d' : BluetoothSocket)
    (h : runCall d c = some d') : d'.errorString = d.errorString := by
  cases c with
  | connectToService address openMode attempts =>
    exact connectToService_errorString d address openMode attempts d' h
  | readData r =>
    simp only [runCall, Option.some.injEq] at h
    rw [← h]
    exact readData_errorString d r
  | writeData len closeRet sends =>
    simp only [runCall] at h
    cases hw : writeData d len closeRet sends with
    | none => rw [hw] at h; simp at h
    | some x =>
      obtain ⟨out, d1⟩ := x
      rw [hw] at h
      simp only [Option.map_some', Option.some.injEq] at h
      rw [← h]
      exact writeLoop_errorString len closeRet sends d 0 len out d1 hw
  | close closeRet =>
    simp only [runCall, Option.some.injEq] at h
    rw [← h]
    exact closeSocket_errorString d closeRet
  | abort closeRet =>
    simp only [runCall, Option.some.injEq] at h
    rw [← h]
    exact closeSocket_errorString d closeRet
  | setPreferredSecurityFlags flags encryptRet authenticateRet =>
    simp only [runCall, Option.some.injEq] at h
    rw [← h]
    exact setPreferredSecurityFlags_errorString d flags encryptRet authenticateRet

theorem runCalls_errorString (calls : List Call) :
    ∀ (d d' : BluetoothSocket), runCalls d calls = some d' →
      d'.errorString = d.errorString := by
  induction calls with
  | nil =>
    intro d d' h
    simp only [runCalls, Option.some.injEq] at h
    rw [h]
  | cons c cs ih =>
    intro d d' h
    rw [runCalls] at h
    cases hc : runCall d c with
    | none => rw [hc] at h; simp at h
    | some d1 =>
      rw [hc] at h
      rw [ih d1 d' h, runCall_errorString d c d1 hc]

theorem construct_errorString (winsockInitialized : Bool) (socketDescriptor : Nat)
    (r : CtorResults) (d0 : BluetoothSocket) (w : Bool)
    (h : construct winsockInitialized socketDescriptor r = Except.ok (d0, w)) :
    d0.errorString = "" := by
  unfold construct at h
  dsimp only at h
  by_cases hthrow : (!winsockInitialized && decide (r.startupRet ≠ 0)) = true
  · rw [if_pos hthrow] at h
    exact absurd h (by simp)
  · rw [if_neg hthrow] at h
    simp only [Except.ok.injEq, Prod.mk.injEq] at h
    obtain ⟨hd, _⟩ := h
    rw [← hd]
    simp [apply_ite BluetoothSocket.errorString]

/-- C20: `setError` changes the stored error code and emits the error signal, nothing else:
the message text it is given has no effect.  For a socket built by the constructor (whatever
its native calls report), after any sequence of `connectToService`, `readData`, `writeData`,
`close`, `abort` and `setPreferredSecurityFlags` calls that return, on any native results,
`errorString()` is still the empty string. -/
theorem errorString_stays_empty (winsockInitialized : Bool) (socketDescriptor : Nat)
    (r : CtorResults) (d0 : BluetoothSocket) (w : Bool) (calls : List Call)
    (d' : BluetoothSocket)
    (hctor : construct winsockInitialized socketDescriptor r = Except.ok (d0, w))
    (hrun : runCalls d0 calls = some d') :
    errorString d' = "" ∧
      ∀ (d : BluetoothSocket) (e : SocketError) (msg : String),
        setError d e msg =
          { d with error := e, trace := d.trace ++ [Effect.errorOccurred e] } ∧
        errorString (setError d e msg) = errorString d := by
  refine ⟨?_, fun d e msg => ⟨rfl, rfl⟩⟩
  unfold errorString
  rw [runCalls_errorString calls d0 d' hrun]
  exact construct_errorString winsockInitialized socketDescriptor r d0 w hctor

/-- C20, at a concrete input: a socket whose constructor fails to set the send buffer size
(so `setError` is called with a message), then security flags whose options both fail, a
refused connect, a write cut by a connection reset, a failing read and a close. -/
theorem errorString_stays_empty_witness :
    ∃ d0 d', construct false INVALID_SOCKET
        { startupRet := 0, socketRet := 5, sndbufRet := SOCKET_ERROR, ioctlRet := 0,
          btAddrInit := 0 } = Except.ok (d0, true) ∧
      runCalls d0
        [Call.setPreferredSecurityFlags { encryption := true, authentication := true }
           SOCKET_ERROR SOCKET_ERROR,
         Call.connectToService 1 3
           [{ connectResult := SOCKET_ERROR, err := WSAECONNREFUSED, polls := [] }],
         Call.writeData 10 0 (acceptThenFail 3 WSAECONNRESET),
         Call.readData { ret := SOCKET_ERROR, bytesRead := 0, lastError := WSAECONNRESET },
         Call.close 0] = some d' ∧
      errorString d' = "" :=
  ⟨_, _, rfl, rfl,
    (errorString_stays_empty false INVALID_SOCKET
      { startupRet := 0, socketRet := 5, sndbufRet := SOCKET_ERROR, ioctlRet := 0,
        btAddrInit := 0 } _ true
      [Call.setPreferredSecurityFlags { encryption := true, authentication := true }
         SOCKET_ERROR SOCKET_ERROR,
       Call.connectToService 1 3
         [{ connectResult := SOCKET_ERROR, err := WSAECONNREFUSED, polls := [] }],
       Call.writeData 10 0 (acceptThenFail 3 WSAECONNRESET),
       Call.readData { ret := SOCKET_ERROR, bytesRead := 0, lastError := WSAECONNRESET },
       Call.close 0] _ rfl rfl).1⟩

/-! ## Receive errors that are not classified -/

/-- C21: when `WSARecv` fails with an error code other than would-block, bad-handle,
invalid-argument, connection-reset and connection-aborted, `readData` returns `-1`, emits no
error signal and leaves `error()` as it was; on a socket without error the failed read thus
returns with `error() == NoSocketError`. -/
theorem readData_unlisted_error (d : BluetoothSocket) (r : RecvResult)
    (hfail : r.ret = SOCKET_ERROR)
    (hcode : r.lastError ≠ WSAEWOULDBLOCK ∧ r.lastError ≠ WSAEBADF ∧
      r.lastError ≠ WSAEINVAL ∧ r.lastError ≠ WSAECONNRESET ∧
      r.lastError ≠ WSAECONNABORTED) :
    (readData d r).1 = -1 ∧ (readData d r).2.error = d.error ∧
      emitted d (readData d r).2 = [Effect.WSARecv, Effect.setReadComplete] ∧
      (d.error = SocketError.NoSocketError →
        (readData d r).2.error = SocketError.NoSocketError) := by
  obtain ⟨h1, h2, h3, h4, h5⟩ := hcode
  have hrun : readData d r = (-1, emit (emit d Effect.WSARecv) Effect.setReadComplete) := by
    simp [readData, hfail, h1, h2, h3, h4, h5]
  rw [hrun]
  exact ⟨rfl, rfl, emitted_of_trace _ _ _ (by simp), fun h => h⟩

/-- C21, at a concrete input: a receive failing with `WSAENOTCONN` on a connected socket
without error. -/
theorem readData_unlisted_error_witness :
    (RecvResult.mk SOCKET_ERROR 0 WSAENOTCONN).ret = SOCKET_ERROR ∧
      connectedSocket.error = SocketError.NoSocketError ∧
      (readData connectedSocket
        { ret := SOCKET_ERROR, bytesRead := 0, lastError := WSAENOTCONN }).1 = -1 ∧
      (readData connectedSocket
        { ret := SOCKET_ERROR, bytesRead := 0, lastError := WSAENOTCONN }).2.error
        = SocketError.NoSocketError :=
  have h := readData_unlisted_error connectedSocket
    { ret := SOCKET_ERROR, bytesRead := 0, lastError := WSAENOTCONN } rfl (by decide)
  ⟨rfl, rfl, h.1, h.2.2.2 rfl⟩

/-! ## Winsock start-up and clean-up over the sockets of a process -/

theorem construct_counts (winsockInitialized : Bool) (socketDescriptor : Nat)
    (r : CtorResults) (d0 : BluetoothSocket) (w : Bool)
    (h : construct winsockInitialized socketDescriptor r = Except.ok (d0, w)) :
    w = true ∧
      d0.trace.count Effect.WSAStartup = (if winsockInitialized then 0 else 1) ∧
      d0.trace.count Effect.WSACleanup = 0 := by
  unfold construct at h
  dsimp only at h
  by_cases hthrow : (!winsockInitialized && decide (r.startupRet ≠ 0)) = true
  · rw [if_pos hthrow] at h
    exact absurd h (by simp)
  · rw [if_neg hthrow] at h
    simp only [Except.ok.injEq, Prod.mk.injEq] at h
    obtain ⟨hd, hw⟩ := h
    rw [← hd]
    refine ⟨hw.symm, ?_, ?_⟩
    · cases winsockInitialized <;>
        simp [apply_ite BluetoothSocket.trace, apply_ite (List.count Effect.WSAStartup),
          List.count_append]
    · cases winsockInitialized <;>
        simp [apply_ite BluetoothSocket.trace, apply_ite (List.count Effect.WSACleanup),
          List.count_append]

theorem destroy_counts (d : BluetoothSocket) (closeRet : Int) :
    (emitted d (destroy d closeRet)).count Effect.WSAStartup = 0 ∧
      (emitted d (destroy d closeRet)).count Effect.WSACleanup = 1 := by
  rw [emitted_of_trace _ _ _ (destroy_trace d closeRet)]
  unfold closeEffects
  constructor <;>
    by_cases hs : d.socket = INVALID_SOCKET <;> by_cases hr : SOCKET_ERROR = closeRet <;>
    by_cases hc : d.state = SocketState.ConnectedState <;> simp [hs, hr, hc]

theorem runOp_counts (p p' : Process) (op : ProcessOp) (h : runOp p op = some p') :
    p'.live.length + destructions [op] = p.live.length + creations [op] ∧
      p'.log.count Effect.WSACleanup
        = p.log.count Effect.WSACleanup + destructions [op] ∧
      p'.log.count Effect.WSAStartup + (if p'.winsockInitialized then 0 else 1)
        = p.log.count Effect.WSAStartup + (if p.winsockInitialized then 0 else 1) ∧
      (p.winsockInitialized = true ∨ 1 ≤ creations [op] → p'.winsockInitialized = true) := by
  cases op with
  | create socketDescriptor r =>
    simp only [runOp] at h
    cases hc : construct p.winsockInitialized socketDescriptor r with
    | error msg => rw [hc] at h; simp at h
    | ok x =>
      obtain ⟨d0, w⟩ := x
      rw [hc] at h
      simp only [Option.some.injEq] at h
      subst h
      obtain ⟨hw, hs, hcl⟩ := construct_counts _ _ _ _ _ hc
      subst hw
      refine ⟨by simp [creations, destructions], ?_, ?_, fun _ => rfl⟩
      · simp [List.count_append, hcl, destructions]
      · simp only [List.count_append, hs]
        cases p.winsockInitialized <;> simp
  | destroy index closeRet =>
    simp only [runOp] at h
    cases hg : p.live.get? index with
    | none => rw [hg] at h; simp at h
    | some d =>
      rw [hg] at h
      simp only [Option.some.injEq] at h
      subst h
      obtain ⟨hs, hcl⟩ := destroy_counts d closeRet
      have hlt : index < p.live.length := by
        rcases List.get?_eq_some.mp hg with ⟨hlt, _⟩
        exact hlt
      refine ⟨?_, ?_, ?_, ?_⟩
      · simp only [creations, destructions, List.length_eraseIdx_of_lt hlt]
        omega
      · simp [List.count_append, hcl, destructions]
      · simp [List.count_append, hs]
      · intro hor
        rcases hor with h1 | h1
        · exact h1
        · simp [creations] at h1

theorem creations_cons (op : ProcessOp) (ops : List ProcessOp) :
    creations (op :: ops) = creations [op] + creations ops := by
  cases op <;> simp [creations]
  omega

theorem destructions_cons (op : ProcessOp) (ops : List ProcessOp) :
    destructions (op :: ops) = destructions [op] + destructions ops := by
  cases op <;> simp [destructions]
  omega

theorem runOps_counts (ops : List ProcessOp) :
    ∀ (p p' : Process), runOps p ops = some p' →
      p'.live.length + destructions ops = p.live.length + creations ops ∧
        p'.log.count Effect.WSACleanup = p.log.count Effect.WSACleanup + destructions ops ∧
        p'.log.count Effect.WSAStartup + (if p'.winsockInitialized then 0 else 1)
          = p.log.count Effect.WSAStartup + (if p.winsockInitialized then 0 else 1) ∧
        (p.winsockInitialized = true ∨ 1 ≤ creations ops →
          p'.winsockInitialized = true) := by
  induction ops with
  | nil =>
    intro p p' h
    simp only [runOps, Option.some.injEq] at h
    subst h
    refine ⟨rfl, rfl, rfl, ?_⟩
    intro hor
    rcases hor with h1 | h1
    · exact h1
    · simp [creations] at h1
  | cons op ops ih =>
    intro p p' h
    rw [runOps] at h
    cases h1 : runOp p op with
    | none => rw [h1] at h; simp at h
    | some p1 =>
      rw [h1] at h
      obtain ⟨a1, a2, a3, a4⟩ := runOp_counts p p1 op h1
      obtain ⟨b1, b2, b3, b4⟩ := ih p1 p' h
      rw [creations_cons, destructions_cons]
      refine ⟨by omega, by omega, by omega, ?_⟩
      intro hor
      apply b4
      rcases hor with h2 | h2
      · exact Or.inl (a4 (Or.inl h2))
      · by_cases hc : 1 ≤ creations [op]
        · exact Or.inl (a4 (Or.inr hc))
        · exact Or.inr (by omega)

/-- C22: in a process that starts with `winsockInitialized == false`, for any sequence of
socket constructions (each start-up succeeding, otherwise the constructor throws) and
destructions, in any order, after which no socket is left alive and in which `n >= 1` sockets
were constructed: `WSAStartup` has been called exactly once, `WSACleanup` exactly `n` times,
and the flag is still set. -/
theorem winsock_startup_once_cleanup_each (ops : List ProcessOp) (p' : Process)
    (hrun : runOps initialProcess ops = some p') (hall : p'.live = [])
    (hn : 1 ≤ creations ops) :
    p'.log.count Effect.WSAStartup = 1 ∧
      p'.log.count Effect.WSACleanup = creations ops ∧
      destructions ops = creations ops ∧
      p'.winsockInitialized = true := by
  obtain ⟨h1, h2, h3, h4⟩ := runOps_counts ops initialProcess p' hrun
  have hflag : p'.winsockInitialized = true := h4 (Or.inr hn)
  rw [hall] at h1
  rw [hflag] at h3
  simp [initialProcess] at h1 h2 h3
  exact ⟨h3, by omega, h1, hflag⟩

/-- C22, at a concrete input: a socket is constructed and destroyed, then two more are
constructed (one adopting descriptor 9) and destroyed: three constructions, one
`WSAStartup`, three `WSACleanup`. -/
theorem winsock_startup_once_cleanup_each_witness :
    ∃ p', runOps initialProcess
        [ProcessOp.create INVALID_SOCKET
           { startupRet := 0, socketRet := 5, sndbufRet := 0, ioctlRet := 0, btAddrInit := 0 },
         ProcessOp.destroy 0 0,
         ProcessOp.create INVALID_SOCKET
           { startupRet := 0, socketRet := 6, sndbufRet := 0, ioctlRet := 0, btAddrInit := 0 },
         ProcessOp.create 9
           { startupRet := 0, socketRet := 0, sndbufRet := 0, ioctlRet := 0, btAddrInit := 0 },
         ProcessOp.destroy 1 0,
         ProcessOp.destroy 0 SOCKET_ERROR] = some p' ∧
      p'.live = [] ∧
      p'.log.count Effect.WSAStartup = 1 ∧
      p'.log.count Effect.WSACleanup = 3 :=
  ⟨_, rfl, rfl,
    (winsock_startup_once_cleanup_each
      [ProcessOp.create INVALID_SOCKET
         { startupRet := 0, socketRet := 5, sndbufRet := 0, ioctlRet := 0, btAddrInit := 0 },
       ProcessOp.destroy 0 0,
       ProcessOp.create INVALID_SOCKET
         { startupRet := 0, socketRet := 6, sndbufRet := 0, ioctlRet := 0, btAddrInit := 0 },
       ProcessOp.create 9
         { startupRet := 0, socketRet := 0, sndbufRet := 0, ioctlRet := 0, btAddrInit := 0 },
       ProcessOp.destroy 1 0,
       ProcessOp.destroy 0 SOCKET_ERROR] _ rfl rfl (by decide)).1,
    (winsock_startup_once_cleanup_each
      [ProcessOp.create INVALID_SOCKET
         { startupRet := 0, socketRet := 5, sndbufRet := 0, ioctlRet := 0, btAddrInit := 0 },
       ProcessOp.destroy 0 0,
       ProcessOp.create INVALID_SOCKET
         { startupRet := 0, socketRet := 6, sndbufRet := 0, ioctlRet := 0, btAddrInit := 0 },
       ProcessOp.create 9
         { startupRet := 0, socketRet := 0, sndbufRet := 0, ioctlRet := 0, btAddrInit := 0 },
       ProcessOp.destroy 1 0,
       ProcessOp.destroy 0 SOCKET_ERROR] _ rfl rfl (by decide)).2.1⟩

end WinBluetooth
